import Mathlib

/-
  Verification development for the Launch Pipeline Controller
  (src/features/profiles/data.ts, `createController` and helpers).

  The TypeScript controller is shallowly embedded as pure Lean functions:
  - per-item mutations become functions `FbLaunchMediaState → FbLaunchMediaState`;
  - the mutable controller state becomes explicit state passing over
    `FbLaunchState` / `World` (the `World` additionally records the trace of
    outbound platform calls and delays, the logical clock, and oracle cursors);
  - the external ads-platform client (`fbLaunchApi`) is an oracle supplying
    the responses of each call, including malformed / throwing responses;
  - JavaScript truthiness on nullable strings is modelled by `strTruthy`.
-/

-- =============================================================================
-- Data model (TYPES section of the source)
-- =============================================================================

inductive MediaType
  | video
  | image
deriving DecidableEq, Repr, Inhabited

inductive MediaStage
  | upload
  | poll
  | ad
  | done
  | failed
deriving DecidableEq, Repr, Inhabited

inductive MediaStatus
  | queued
  | in_progress
  | retry
  | completed
  | failed
deriving DecidableEq, Repr, Inhabited

inductive LaunchPhase
  | idle
  | checking
  | uploading
  | polling
  | creating_campaign
  | creating_ads
  | stopped
  | complete
  | error
deriving DecidableEq, Repr, Inhabited

/-- `FbLaunchMediaState`: the per-item record of the pipeline. -/
structure FbLaunchMediaState where
  type : MediaType
  name : String
  url : String
  fallbackUrl : Option String
  stage : MediaStage
  status : MediaStatus
  retryCount : Nat
  usedFallback : Bool
  fbVideoId : Option String
  thumbnailUrl : Option String
  adId : Option String
  error : Option String
deriving DecidableEq, Repr, Inhabited

/-- `FbLaunchMediaInput`: caller-supplied description of one media asset. -/
structure FbLaunchMediaInput where
  type : MediaType
  name : String
  url : String
  fallbackUrl : Option String
  fbVideoId : Option String
deriving DecidableEq, Repr, Inhabited

/-- Resolved options (source: `Required<FbLaunchOptions>` with source defaults). -/
structure FbLaunchOptions where
  checkLibraryFirst : Bool := true
  forceReupload : Bool := false
  uploadBatchSize : Nat := 10
  adBatchSize : Nat := 25
  uploadStaggerMs : Nat := 1000
  tickIntervalMs : Nat := 10000
  initialPollDelayMs : Nat := 8000
  maxTicks : Nat := 15
  maxRetries : Nat := 3
deriving DecidableEq, Repr, Inhabited

/-- Aggregate statistics (source: `FbLaunchStats`, nested record flattened). -/
structure FbLaunchStats where
  uploadQueued : Nat
  uploadInProgress : Nat
  uploadFailed : Nat
  pollWaiting : Nat
  adQueued : Nat
  adInProgress : Nat
  adFailed : Nat
  done : Nat
  failed : Nat
  total : Nat
deriving DecidableEq, Repr, Inhabited

/-- `FbLaunchState`: the controller's mutable state record. -/
structure FbLaunchState where
  phase : LaunchPhase
  isRunning : Bool
  isStopped : Bool
  campaignId : Option String
  adsetId : Option String
  tick : Nat
  rate : Nat
  startTime : Option Nat
  elapsed : ℚ
  media : List FbLaunchMediaState
  stats : Option FbLaunchStats
  error : Option String
deriving DecidableEq, Repr, Inhabited

-- =============================================================================
-- JavaScript truthiness helpers
-- =============================================================================

/-- JS truthiness of a nullable string (`null`, `undefined` and `""` are falsy). -/
def strTruthy : Option String → Bool
  | none => false
  | some s => !(s == "")

/-- JS `x || null` on a nullable string. -/
def jsOrNull (o : Option String) : Option String :=
  if strTruthy o then o else none

/-- JS `x || d` producing a string (`v.fallbackUrl || v.url`). -/
def jsOrElse (o : Option String) (d : String) : String :=
  match o with
  | some s => if s == "" then d else s
  | none => d

-- =============================================================================
-- getStats (source lines 309-328)
-- =============================================================================

def getStats (media : List FbLaunchMediaState) : FbLaunchStats where
  uploadQueued :=
    (media.filter fun m =>
      m.type == .video && m.stage == .upload && m.status == .queued).length
  uploadInProgress :=
    (media.filter fun m =>
      m.type == .video && m.stage == .upload && m.status == .in_progress).length
  uploadFailed :=
    (media.filter fun m =>
      m.type == .video && m.stage == .upload && m.status == .failed).length
  pollWaiting :=
    (media.filter fun m => m.type == .video && m.stage == .poll).length
  adQueued :=
    (media.filter fun m =>
      m.stage == .ad && (m.status == .queued || m.status == .retry)).length
  adInProgress :=
    (media.filter fun m => m.stage == .ad && m.status == .in_progress).length
  adFailed :=
    (media.filter fun m => m.stage == .ad && m.status == .failed).length
  done := (media.filter fun m => m.stage == .done).length
  failed := (media.filter fun m => m.stage == .failed).length
  total := media.length

/-- Sum of the nine per-bucket counts of `getStats` (the spec's partition sum). -/
def statsSum (s : FbLaunchStats) : Nat :=
  s.uploadQueued + s.uploadInProgress + s.uploadFailed + s.pollWaiting +
    s.adQueued + s.adInProgress + s.adFailed + s.done + s.failed

/-- Videos sitting at stage `upload` with status `retry` (counted by no bucket). -/
def uploadRetryCount (media : List FbLaunchMediaState) : Nat :=
  (media.filter fun m =>
    m.type == .video && m.stage == .upload && m.status == .retry).length

-- =============================================================================
-- Per-item mutations performed by the stage executors
-- =============================================================================

/-- Initial per-item state built by `createController` from the input list. -/
def initMediaItem (inp : FbLaunchMediaInput) : FbLaunchMediaState where
  type := inp.type
  name := inp.name
  url := inp.url
  fallbackUrl := inp.fallbackUrl
  stage := if inp.type = .video ∧ ¬ strTruthy inp.fbVideoId then .upload else .ad
  status := .queued
  retryCount := 0
  usedFallback := false
  fbVideoId := jsOrNull inp.fbVideoId
  thumbnailUrl := none
  adId := none
  error := none

/-- `v.status = 'in_progress'` (upload and ad stages mark selected items). -/
def markInProgressItem (m : FbLaunchMediaState) : FbLaunchMediaState :=
  { m with status := .in_progress }

/-- Per-item upload success (`body.id` truthy, code 200). -/
def uploadSuccessItem (id : String) (v : FbLaunchMediaState) : FbLaunchMediaState :=
  { v with fbVideoId := some id, stage := .poll, status := .queued }

/-- `handleUploadFailure` (source lines 515-529): `retryCount` is incremented
first (inlined below into each branch), then the fallback is tried if unused,
else the incremented count is compared against `maxRetries`. -/
def handleUploadFailure (maxRetries : Nat) (video : FbLaunchMediaState) :
    FbLaunchMediaState :=
  if ¬ video.usedFallback ∧ strTruthy video.fallbackUrl then
    { video with retryCount := video.retryCount + 1, usedFallback := true, status := .retry }
  else if video.retryCount + 1 < maxRetries then
    { video with retryCount := video.retryCount + 1, status := .retry }
  else
    { video with
      retryCount := video.retryCount + 1
      stage := .failed
      status := .failed
      error := some "Max retries exceeded" }

/-- `handleAdFailure` (source lines 687-702): same shape, but the fallback
branch is image-only and overwrites `url` permanently. -/
def handleAdFailure (maxRetries : Nat) (media : FbLaunchMediaState) :
    FbLaunchMediaState :=
  if media.type = .image ∧ ¬ media.usedFallback ∧ strTruthy media.fallbackUrl then
    { media with
      retryCount := media.retryCount + 1
      usedFallback := true
      url := jsOrElse media.fallbackUrl media.url
      status := .retry }
  else if media.retryCount + 1 < maxRetries then
    { media with retryCount := media.retryCount + 1, status := .retry }
  else
    { media with
      retryCount := media.retryCount + 1
      stage := .failed
      status := .failed
      error := some "Max retries exceeded" }

/-- Poll hit: remote status ready with a picture. -/
def pollReadyItem (pic : String) (v : FbLaunchMediaState) : FbLaunchMediaState :=
  { v with thumbnailUrl := some pic, stage := .ad, status := .queued }

/-- Per-item ad-creation success. -/
def adSuccessItem (id : String) (m : FbLaunchMediaState) : FbLaunchMediaState :=
  { m with adId := some id, stage := .done, status := .completed }

/-- The per-item reset performed by `retryFailed` on items with status failed. -/
def retryResetItem (m : FbLaunchMediaState) : FbLaunchMediaState :=
  { m with
    status := .retry
    retryCount := 0
    error := none
    stage :=
      if m.type = .video ∧ ¬ strTruthy m.fbVideoId then .upload
      else if m.type = .video ∧ ¬ strTruthy m.thumbnailUrl then .poll
      else .ad }

/-- Check-library hit: the item is fast-forwarded to the ad stage. -/
def checkHitItem (id : String) (pic : String) (v : FbLaunchMediaState) :
    FbLaunchMediaState :=
  { v with fbVideoId := some id, thumbnailUrl := some pic, stage := .ad, status := .queued }

-- =============================================================================
-- Platform-client oracle and the event trace
-- =============================================================================

/-- One entry of a platform batch response (`{code, body}`), as the controller
consumes it: code 200 with a parseable JSON body carrying an `id` field
(`ok bodyId`), code 200 with a body `JSON.parse` throws on (`okBadJson`),
or a non-200 code (`errCode`). -/
inductive UploadItemResp
  | ok (bodyId : Option String)
  | okBadJson
  | errCode
deriving DecidableEq, Repr, Inhabited

/-- A whole batch-call outcome: an array of per-item entries together with the
observed rate, a non-array payload, or a transport exception. -/
inductive BatchResp
  | arr (items : List UploadItemResp) (rate : Nat)
  | nonArray (rate : Nat)
  | exn
deriving DecidableEq, Repr, Inhabited

/-- One entry of the platform media library, as `checkLibrary`/`pollVideos`
consume it. -/
structure LibEntryR where
  id : String
  title : String
  videoStatus : Option String
  picture : Option String
deriving DecidableEq, Repr, Inhabited

/-- A library lookup response: `data.data` (possibly absent) plus the rate. -/
structure LibResp where
  entries : Option (List LibEntryR)
  rate : Nat
deriving DecidableEq, Repr, Inhabited

/-- Response of `createCampaign` / `createAdSet`. -/
structure CreateResp where
  errorMsg : Option String
  id : Option String
  rate : Nat
deriving DecidableEq, Repr, Inhabited

/-- The external ads-platform client, modelled as response oracles indexed by
call count (`none` for throwing lookups). -/
structure Oracle where
  check : Option LibResp
  upload : Nat → BatchResp
  poll : Nat → Option LibResp
  campaign : CreateResp
  adset : CreateResp
  ads : Nat → BatchResp

/-- An outbound platform call, as recorded in the run trace. -/
inductive PCall
  | checkLibraryByName (names : List String)
  | uploadVideoBatch (videos : List (String × String))
  | pollLibrary (ids : List String)
  | createCampaign
  | createAdSet
  | createAdsBatch (names : List String)
deriving DecidableEq, Repr, Inhabited

/-- A trace event: a platform call or an awaited delay. -/
inductive Ev
  | call (c : PCall)
  | delayEv (ms : Nat)
deriving DecidableEq, Repr, Inhabited

/-- Number of platform calls in a trace. -/
def callCount (tr : List Ev) : Nat :=
  (tr.filter fun e => match e with | .call _ => true | .delayEv _ => false).length

/-- Number of `createAdsBatch` calls in a trace. -/
def adsCallCount (tr : List Ev) : Nat :=
  (tr.filter fun e =>
    match e with | .call (.createAdsBatch _) => true | _ => false).length

/-- The controller state together with the run trace, the logical clock
(advanced by awaited delays) and the per-endpoint oracle cursors. -/
structure World where
  st : FbLaunchState
  clock : Nat
  trace : List Ev
  nUp : Nat
  nPoll : Nat
  nAds : Nat
deriving DecidableEq, Repr, Inhabited

/-- `(Date.now() - startTime) / 1000` — elapsed seconds. -/
def elapsedQ (clock : Nat) (startTime : Option Nat) : ℚ :=
  match startTime with
  | some t => ((clock - t : Nat) : ℚ) / 1000
  | none => 0

/-- `emitProgress` (source lines 384-391): refresh `elapsed` and `stats`
(the observer callback receives the snapshot; it never mutates state). -/
def emitS (clock : Nat) (s : FbLaunchState) : FbLaunchState :=
  { s with elapsed := elapsedQ clock s.startTime, stats := some (getStats s.media) }

def emitW (w : World) : World :=
  { w with st := emitS w.clock w.st }

/-- `await delay(ms)`: advance the clock and record the delay event. -/
def delayW (ms : Nat) (w : World) : World :=
  { w with clock := w.clock + ms, trace := w.trace ++ [Ev.delayEv ms] }

/-- Record an outbound platform call. -/
def callW (c : PCall) (w : World) : World :=
  { w with trace := w.trace ++ [Ev.call c] }

/-- Item access (indices come from in-range selections). -/
def getI (l : List FbLaunchMediaState) (i : Nat) : FbLaunchMediaState :=
  l.getD i default

/-- Fuel-driven worker of `chunkList`; for a positive chunk size every step
consumes at least one element, so `l.length` fuel is always enough. -/
def chunkGo (n : Nat) : Nat → List α → List (List α)
  | _, [] => []
  | 0, a :: l => [a :: l]
  | fuel + 1, a :: l => (a :: l).take n :: chunkGo n fuel ((a :: l).drop n)

/-- Batch partitioning: `for (i = 0; i < len; i += size) slice(i, i + size)`.
The source never runs it with size 0 (default 10; it would not terminate
there), so the `n = 0` case is an arbitrary total completion. -/
def chunkList (n : Nat) (l : List α) : List (List α) :=
  if n = 0 then (match l with | [] => [] | _ => [l])
  else chunkGo n l.length l

-- =============================================================================
-- Upload stage (source lines 438-529)
-- =============================================================================

/-- Selection predicate of the upload stage. -/
def uploadCandidate (m : FbLaunchMediaState) : Bool :=
  m.type == .video && m.stage == .upload &&
    (m.status == .queued || m.status == .retry)

/-- URL actually sent: `v.usedFallback ? (v.fallbackUrl || v.url) : v.url`. -/
def sendUrl (v : FbLaunchMediaState) : String :=
  if v.usedFallback then jsOrElse v.fallbackUrl v.url else v.url

/-- Mark the selected indices `in_progress`. -/
def markSel (sel : List Nat) (med : List FbLaunchMediaState) :
    List FbLaunchMediaState :=
  sel.foldl (fun m i => m.set i (markInProgressItem (getI m i))) med

/-- The per-item `data.forEach` of the upload batch handler. Returns the media
after processing and whether an exception (`JSON.parse` on a code-200 entry, or
an out-of-range `batch[idx]` access) aborted the loop. -/
def procUploadItems (mr : Nat) :
    List UploadItemResp → List Nat → List FbLaunchMediaState →
      List FbLaunchMediaState × Bool
  | [], _, med => (med, false)
  | _ :: _, [], med => (med, true)
  | r :: rs, i :: is, med =>
    match r with
    | .okBadJson => (med, true)
    | .ok bodyId =>
      if strTruthy bodyId then
        procUploadItems mr rs is (med.set i (uploadSuccessItem (bodyId.getD "") (getI med i)))
      else
        procUploadItems mr rs is (med.set i (handleUploadFailure mr (getI med i)))
    | .errCode =>
      procUploadItems mr rs is (med.set i (handleUploadFailure mr (getI med i)))

/-- `batch.forEach(video => handleUploadFailure(video))`. -/
def failBatchUpload (mr : Nat) (idxs : List Nat) (med : List FbLaunchMediaState) :
    List FbLaunchMediaState :=
  idxs.foldl (fun m i => m.set i (handleUploadFailure mr (getI m i))) med

/-- Processing of one upload batch response (the try/catch body): per-item
handling for an array response; full-batch failure for a non-array response, a
transport exception, or an exception thrown mid-loop. Also returns the rate to
store, when the call returned one. -/
def runUploadBatch (mr : Nat) (med : List FbLaunchMediaState) (idxs : List Nat) :
    BatchResp → List FbLaunchMediaState × Option Nat
  | .arr rs rate =>
    let p := procUploadItems mr rs idxs med
    (if p.2 then failBatchUpload mr idxs p.1 else p.1, some rate)
  | .nonArray rate => (failBatchUpload mr idxs med, some rate)
  | .exn => (failBatchUpload mr idxs med, none)

/-- One iteration body of the upload batch loop: the optional stagger delay
(before every batch after the first), the batch call with the names and send
URLs of the batch's items, and the response handling with a progress emit. -/
def uploadStep (opts : FbLaunchOptions) (oracle : Nat → BatchResp)
    (b : List Nat) (i : Nat) (w : World) : World :=
  let payload := b.map fun j =>
    ((getI w.st.media j).name, sendUrl (getI w.st.media j))
  let res := runUploadBatch opts.maxRetries w.st.media b (oracle w.nUp)
  let w1 := if i > 0 then delayW opts.uploadStaggerMs w else w
  let w2 := callW (.uploadVideoBatch payload) w1
  { w2 with
    st := emitS w2.clock
      { w.st with media := res.1, rate := res.2.getD w.st.rate }
    nUp := w.nUp + 1 }

/-- The sequential batch loop of `uploadVideos`. `stopAt i` is the value of the
stop flag observed at the top of iteration `i` (it can be flipped by a
concurrent `stop()` at any await point). -/
def uploadLoop (opts : FbLaunchOptions) (stopAt : Nat → Bool)
    (oracle : Nat → BatchResp) :
    List (List Nat) → Nat → World → World
  | [], _, w => w
  | b :: bs, i, w =>
    if w.st.isStopped || stopAt i then w
    else uploadLoop opts stopAt oracle bs (i + 1) (uploadStep opts oracle b i w)

/-- Indices of the items selected by the upload stage. -/
def uploadSel (med : List FbLaunchMediaState) : List Nat :=
  (List.range med.length).filter fun i => uploadCandidate (getI med i)

/-- The intermediate world of `uploadVideos` from which the batch loop starts:
phase set, all selected items marked `in_progress`, progress emitted. -/
def uploadMarkedWorld (w : World) : World :=
  emitW { w with st := { w.st with media := markSel (uploadSel w.st.media) w.st.media } }

/-- `uploadVideos` (source lines 438-513). -/
def uploadVideos (opts : FbLaunchOptions) (stopAt : Nat → Bool)
    (oracle : Nat → BatchResp) (w : World) : World :=
  if w.st.isStopped then w
  else
    let w1 := emitW { w with st := { w.st with phase := .uploading } }
    let sel := uploadSel w1.st.media
    if sel.isEmpty then w1
    else
      uploadLoop opts stopAt oracle (chunkList opts.uploadBatchSize sel) 0
        (uploadMarkedWorld w1)

-- =============================================================================
-- Check-library stage (source lines 396-433)
-- =============================================================================

/-- `new Map(list.map(v => [v.title, v])).get key`: later entries win. -/
def lookupByTitle (es : List LibEntryR) (key : String) : Option LibEntryR :=
  (es.filter fun e => e.title == key).getLast?

/-- `new Map(list.map(v => [v.id, v])).get key`: later entries win. -/
def lookupById (es : List LibEntryR) (key : String) : Option LibEntryR :=
  (es.filter fun e => e.id == key).getLast?

/-- Library-hit condition: `existing.status?.video_status === 'ready' && existing.picture`. -/
def libReady (e : LibEntryR) : Bool :=
  e.videoStatus == some "ready" && strTruthy e.picture

/-- Application of a check-library response to one item. -/
def checkApplyItem (es : List LibEntryR) (m : FbLaunchMediaState) :
    FbLaunchMediaState :=
  if m.type = .video then
    match lookupByTitle es m.name with
    | some e =>
      if libReady e then checkHitItem e.id (e.picture.getD "") m else m
    | none => m
  else m

/-- `checkLibrary` (source lines 396-433). Failures are caught and swallowed. -/
def checkLibrary (oracle : Oracle) (w : World) : World :=
  if w.st.isStopped then w
  else
    let w1 := emitW { w with st := { w.st with phase := .checking } }
    let names := (w1.st.media.filter fun m => m.type == .video).map (·.name)
    if names.isEmpty then w1
    else
      let w2 := callW (.checkLibraryByName names) w1
      match oracle.check with
      | none => w2
      | some resp =>
        let st1 := { w2.st with rate := resp.rate }
        let med :=
          match resp.entries with
          | none => st1.media
          | some es => st1.media.map (checkApplyItem es)
        { w2 with st := emitS w2.clock { st1 with media := med } }

-- =============================================================================
-- Poll stage (source lines 534-565)
-- =============================================================================

/-- Selection predicate of the poll stage. -/
def pollCandidate (m : FbLaunchMediaState) : Bool :=
  m.type == .video && m.stage == .poll && strTruthy m.fbVideoId

/-- Application of a poll response to the selected indices. -/
def pollApply (es : List LibEntryR) (toPoll : List Nat)
    (med : List FbLaunchMediaState) : List FbLaunchMediaState :=
  toPoll.foldl
    (fun m i =>
      let v := getI m i
      match lookupById es (v.fbVideoId.getD "") with
      | some e => if libReady e then m.set i (pollReadyItem (e.picture.getD "") v) else m
      | none => m)
    med

/-- `pollVideos` (source lines 534-565). Failures are caught and swallowed. -/
def pollVideos (oracle : Oracle) (w : World) : World :=
  if w.st.isStopped then w
  else
    let w1 := { w with st := { w.st with phase := .polling } }
    let toPoll := (List.range w1.st.media.length).filter fun i =>
      pollCandidate (getI w1.st.media i)
    if toPoll.isEmpty then w1
    else
      let ids := toPoll.map fun i => (getI w1.st.media i).fbVideoId.getD ""
      let w2 := callW (.pollLibrary ids) w1
      match oracle.poll w2.nPoll with
      | none => { w2 with nPoll := w2.nPoll + 1 }
      | some resp =>
        let st1 := { w2.st with rate := resp.rate }
        let med :=
          match resp.entries with
          | none => st1.media
          | some es => pollApply es toPoll st1.media
        { w2 with st := emitS w2.clock { st1 with media := med }, nPoll := w2.nPoll + 1 }

-- =============================================================================
-- Campaign / ad-set creation (source lines 570-616)
-- =============================================================================

/-- `createCampaignAndAdSet`. The second component is the thrown error message
(`none` when the function returns normally). -/
def createCampaignAndAdSet (oracle : Oracle) (w : World) : World × Option String :=
  if w.st.isStopped then (w, none)
  else if strTruthy w.st.campaignId ∧ strTruthy w.st.adsetId then (w, none)
  else
    let w1 := emitW { w with st := { w.st with phase := .creating_campaign } }
    let w2 := callW .createCampaign w1
    let r := oracle.campaign
    let st1 := { w2.st with rate := r.rate }
    match r.errorMsg with
    | some e =>
      let msg := "Campaign: " ++ e
      ({ w2 with st := emitS w2.clock { st1 with phase := .error, error := some msg } },
        some msg)
    | none =>
      let st2 := emitS w2.clock { st1 with campaignId := jsOrNull r.id }
      if st2.isStopped then ({ w2 with st := st2 }, none)
      else
        let w3 := callW .createAdSet { w2 with st := st2 }
        let r2 := oracle.adset
        let st3 := { w3.st with rate := r2.rate }
        match r2.errorMsg with
        | some e =>
          let msg := "AdSet: " ++ e
          ({ w3 with st := emitS w3.clock { st3 with phase := .error, error := some msg } },
            some msg)
        | none =>
          ({ w3 with st := emitS w3.clock { st3 with adsetId := jsOrNull r2.id } }, none)

-- =============================================================================
-- Ad-creation stage (source lines 621-702)
-- =============================================================================

/-- Selection predicate of the ad-creation stage. -/
def adCandidate (m : FbLaunchMediaState) : Bool :=
  m.stage == .ad && (m.status == .queued || m.status == .retry)

/-- The per-item `data.forEach` of the ads batch handler (same abort semantics
as the upload one). -/
def procAdItems (mr : Nat) :
    List UploadItemResp → List Nat → List FbLaunchMediaState →
      List FbLaunchMediaState × Bool
  | [], _, med => (med, false)
  | _ :: _, [], med => (med, true)
  | r :: rs, i :: is, med =>
    match r with
    | .okBadJson => (med, true)
    | .ok bodyId =>
      if strTruthy bodyId then
        procAdItems mr rs is (med.set i (adSuccessItem (bodyId.getD "") (getI med i)))
      else
        procAdItems mr rs is (med.set i (handleAdFailure mr (getI med i)))
    | .errCode =>
      procAdItems mr rs is (med.set i (handleAdFailure mr (getI med i)))

/-- `batch.forEach(media => handleAdFailure(media))`. -/
def failBatchAd (mr : Nat) (idxs : List Nat) (med : List FbLaunchMediaState) :
    List FbLaunchMediaState :=
  idxs.foldl (fun m i => m.set i (handleAdFailure mr (getI m i))) med

/-- Processing of one ads batch response. -/
def runAdBatch (mr : Nat) (med : List FbLaunchMediaState) (idxs : List Nat) :
    BatchResp → List FbLaunchMediaState × Option Nat
  | .arr rs rate =>
    let p := procAdItems mr rs idxs med
    (if p.2 then failBatchAd mr idxs p.1 else p.1, some rate)
  | .nonArray rate => (failBatchAd mr idxs med, some rate)
  | .exn => (failBatchAd mr idxs med, none)

/-- One iteration body of the ads batch loop: mark the batch `in_progress`,
emit, dispatch the batch call, handle the response, emit. -/
def adStep (opts : FbLaunchOptions) (oracle : Oracle) (b : List Nat)
    (w : World) : World :=
  let med1 := markSel b w.st.media
  let w1 := emitW { w with st := { w.st with media := med1 } }
  let payload := b.map fun j => (getI med1 j).name
  let w2 := callW (.createAdsBatch payload) w1
  let res := runAdBatch opts.maxRetries med1 b (oracle.ads w.nAds)
  { w2 with
    st := emitS w2.clock
      { w.st with media := res.1, rate := res.2.getD w.st.rate }
    nAds := w.nAds + 1 }

/-- The sequential batch loop of `createAds`: each batch is marked
`in_progress` inside the loop, then dispatched (no stagger delay here). -/
def adLoop (opts : FbLaunchOptions) (stopAt : Nat → Bool) (oracle : Oracle) :
    List (List Nat) → Nat → World → World
  | [], _, w => w
  | b :: bs, i, w =>
    if w.st.isStopped || stopAt i then w
    else adLoop opts stopAt oracle bs (i + 1) (adStep opts oracle b w)

/-- `createAds` (source lines 621-685). -/
def createAds (opts : FbLaunchOptions) (stopAt : Nat → Bool) (oracle : Oracle)
    (w : World) : World :=
  if w.st.isStopped then w
  else
    let w1 := { w with st := { w.st with phase := .creating_ads } }
    let sel := (List.range w1.st.media.length).filter fun i =>
      adCandidate (getI w1.st.media i)
    if sel.isEmpty then w1
    else adLoop opts stopAt oracle (chunkList opts.adBatchSize sel) 0 w1

-- =============================================================================
-- Tick loop (source lines 707-742)
-- =============================================================================

/-- `state.media.some(m => video at upload with status retry)`. -/
def hasUploadRetries (w : World) : Bool :=
  w.st.media.any fun m =>
    m.type == .video && m.stage == .upload && m.status == .retry

/-- Steps 1-3 of one tick: bump the tick counter and emit, poll the waiting
videos, create ads for ready items, re-run uploads when retries are pending. -/
def tickIter (opts : FbLaunchOptions) (oracle : Oracle) (w : World) : World :=
  let w1 := emitW { w with st := { w.st with tick := w.st.tick + 1 } }
  let w2 := pollVideos oracle w1
  let w3 := createAds opts (fun _ => false) oracle w2
  if hasUploadRetries w3 then uploadVideos opts (fun _ => false) oracle.upload w3
  else w3

/-- One pass of the `while` loop of `runTickLoop`, driven by fuel (the tick
counter is incremented exactly once per iteration, so `maxTicks - tick` fuel is
exact). -/
def tickLoop (opts : FbLaunchOptions) (oracle : Oracle) :
    Nat → World → World
  | 0, w => w
  | fuel + 1, w =>
    if w.st.tick < opts.maxTicks ∧ ¬ w.st.isStopped then
      let w4 := tickIter opts oracle w
      let stats := getStats w4.st.media
      if stats.done + stats.failed = stats.total then
        emitW { w4 with st := { w4.st with phase := .complete } }
      else
        let w5 :=
          if w4.st.tick < opts.maxTicks ∧ ¬ w4.st.isStopped then
            delayW opts.tickIntervalMs w4
          else w4
        tickLoop opts oracle fuel w5
    else w

/-- `runTickLoop` (source lines 707-742). -/
def runTickLoop (opts : FbLaunchOptions) (oracle : Oracle) (w : World) : World :=
  tickLoop opts oracle (opts.maxTicks - w.st.tick) (delayW opts.initialPollDelayMs w)

-- =============================================================================
-- Controller lifecycle (source lines 747-831)
-- =============================================================================

/-- The entry mutations of `start()`: flags, start time, first emit. -/
def startEntry (w : World) : World :=
  emitW { w with st :=
    { w.st with isRunning := true, isStopped := false, startTime := some w.clock } }

/-- The world reached by `start()` just before the campaign stage
(check-library, when enabled, then the upload stage). -/
def preCampaignWorld (opts : FbLaunchOptions) (oracle : Oracle) (w : World) : World :=
  uploadVideos opts (fun _ => false) oracle.upload
    (if opts.checkLibraryFirst ∧ ¬ opts.forceReupload then checkLibrary oracle (startEntry w)
     else startEntry w)

/-- The tail of `start()` after the tick loop: `if (!state.isStopped)
state.phase = 'complete'; state.isRunning = false; emitProgress()`. -/
def startComplete (w4 : World) : World × Option String :=
  if ¬ w4.st.isStopped then
    (emitW { w4 with st := { w4.st with phase := .complete, isRunning := false } },
      none)
  else (emitW { w4 with st := { w4.st with isRunning := false } }, none)

/-- The tail of `start()` from the campaign stage's outcome on: the catch
clause when it threw, otherwise the stop check, the tick loop and the
completion tail. -/
def startFinish (opts : FbLaunchOptions) (oracle : Oracle)
    (p : World × Option String) : World × Option String :=
  match p.2 with
  | some msg =>
    (emitW { p.1 with st :=
      { p.1.st with phase := .error, error := some msg, isRunning := false } },
      some msg)
  | none =>
    if p.1.st.isStopped then (p.1, none)
    else startComplete (runTickLoop opts oracle p.1)

/-- `start` (source lines 747-791), for a run with no concurrent `stop()`.
The second component is the error re-raised to the caller (`none` when the
returned promise resolves). -/
def start (opts : FbLaunchOptions) (oracle : Oracle) (w : World) :
    World × Option String :=
  if w.st.isRunning then (w, none)
  else
    if (preCampaignWorld opts oracle w).st.isStopped then
      (preCampaignWorld opts oracle w, none)
    else
      startFinish opts oracle
        (createCampaignAndAdSet oracle (preCampaignWorld opts oracle w))

/-- `stop` (source lines 796-801). -/
def stop (clock : Nat) (s : FbLaunchState) : FbLaunchState :=
  emitS clock { s with isStopped := true, phase := .stopped, isRunning := false }

/-- `getState` (source lines 806-809): refresh `stats` and return the spread
copy `{ ...state }` (a shallow copy: scalar fields are copied, the `media`
array is shared with the live state; `elapsed` is not touched here). -/
def getState (s : FbLaunchState) : FbLaunchState :=
  { s with stats := some (getStats s.media) }

/-- `retryFailed` on one item. -/
def retryFailedItem (m : FbLaunchMediaState) : FbLaunchMediaState :=
  if m.status = .failed then retryResetItem m else m

/-- `retryFailed` (source lines 814-831). -/
def retryFailed (clock : Nat) (s : FbLaunchState) : FbLaunchState :=
  emitS clock { s with media := s.media.map retryFailedItem }

/-- The initial controller state built by `createController`. -/
def initState (inputs : List FbLaunchMediaInput) : FbLaunchState where
  phase := .idle
  isRunning := false
  isStopped := false
  campaignId := none
  adsetId := none
  tick := 0
  rate := 0
  startTime := none
  elapsed := 0
  media := inputs.map initMediaItem
  stats := none
  error := none

/-- A fresh `World` around a controller state. -/
def mkWorld (s : FbLaunchState) : World where
  st := s
  clock := 0
  trace := []
  nUp := 0
  nPoll := 0
  nAds := 0

-- =============================================================================
-- Per-item transition system (the mutations the stage executors perform on one
-- item, with the guards under which the code applies them)
-- =============================================================================

/-- One mutation of a single media item, as performed somewhere in the upload /
poll / ad stages or by `retryFailed`. The failure handlers apply to items of
the current batch in any state those can meanwhile have reached (in progress,
advanced to the next stage by an earlier entry of the same response, or already
handled once and re-handled by the batch-level catch). Their guards record the
one fact batch membership gives: an item can be `failed` at handler-application
time only if this very batch failed it moments earlier, and the failing branch
of the same handler fires only once the fallback is spent or absent (for
`handleUploadFailure` the whole batch consists of videos; for `handleAdFailure`
only the image branch consults the fallback, hence the image-scoped guard).
The check-library fast-forward (`checkHitItem`) is not a failure-handling or
pipeline-progress transition and is deliberately not listed here; `ItemStepFull`
below adds it. -/
inductive ItemStep (mr : Nat) : FbLaunchMediaState → FbLaunchMediaState → Prop
  | markUpload (m : FbLaunchMediaState)
      (h : m.type = .video ∧ m.stage = .upload ∧
        (m.status = .queued ∨ m.status = .retry)) :
      ItemStep mr m (markInProgressItem m)
  | uploadSuccess (m : FbLaunchMediaState) (id : String)
      (h : m.type = .video ∧ m.stage = .upload ∧ m.status = .in_progress) :
      ItemStep mr m (uploadSuccessItem id m)
  | uploadFail (m : FbLaunchMediaState)
      (h : m.status = .failed →
        m.usedFallback = true ∨ strTruthy m.fallbackUrl = false) :
      ItemStep mr m (handleUploadFailure mr m)
  | pollReady (m : FbLaunchMediaState) (pic : String) (h : m.stage = .poll) :
      ItemStep mr m (pollReadyItem pic m)
  | markAd (m : FbLaunchMediaState)
      (h : m.stage = .ad ∧ (m.status = .queued ∨ m.status = .retry)) :
      ItemStep mr m (markInProgressItem m)
  | adSuccess (m : FbLaunchMediaState) (id : String)
      (h : m.stage = .ad ∧ m.status = .in_progress) :
      ItemStep mr m (adSuccessItem id m)
  | adFail (m : FbLaunchMediaState)
      (h : m.status = .failed → m.type = .image →
        m.usedFallback = true ∨ strTruthy m.fallbackUrl = false) :
      ItemStep mr m (handleAdFailure mr m)
  | retryReset (m : FbLaunchMediaState) (h : m.status = .failed) :
      ItemStep mr m (retryResetItem m)

/-- Item states reachable from initialization under any sequence of stage
transitions and failure handling. -/
inductive ItemReach (mr : Nat) : FbLaunchMediaState → Prop
  | init (inp : FbLaunchMediaInput) : ItemReach mr (initMediaItem inp)
  | step {m m' : FbLaunchMediaState} :
      ItemReach mr m → ItemStep mr m m' → ItemReach mr m'

/-- Stage/status/type shapes that actually occur: upload-stage items are videos
with status queued, in-progress or retry; poll-stage items are non-failed
videos; ad-stage items are never completed. -/
def shapeOK (m : FbLaunchMediaState) : Prop :=
  (m.stage = .upload → m.type = .video ∧
    (m.status = .queued ∨ m.status = .in_progress ∨ m.status = .retry)) ∧
  (m.stage = .poll → m.type = .video ∧ m.status ≠ .failed) ∧
  (m.stage = .ad → m.status ≠ .completed)

/-- Retry bookkeeping invariant: a non-failed item has used at most `mr`
retries; when its fallback is still unused, strictly fewer. -/
def retryInv (mr : Nat) (m : FbLaunchMediaState) : Prop :=
  (m.status ≠ .failed → m.retryCount ≤ mr) ∧
  (m.status ≠ .failed → m.usedFallback = false → m.retryCount < mr)

theorem shapeOK_step {mr : Nat} {m m' : FbLaunchMediaState}
    (hs : shapeOK m) (st : ItemStep mr m m') : shapeOK m' := by
  obtain ⟨h1, h2, h3⟩ := hs
  cases st with
  | markUpload h =>
    obtain ⟨hv, hu, _⟩ := h
    simp [shapeOK, markInProgressItem, hu, hv]
  | uploadSuccess id h =>
    simp [shapeOK, uploadSuccessItem, h.1]
  | uploadFail =>
    unfold handleUploadFailure
    split
    · exact ⟨fun hu => ⟨(h1 hu).1, by simp⟩, fun hp => ⟨(h2 hp).1, by simp⟩,
        fun _ => by simp⟩
    · split
      · exact ⟨fun hu => ⟨(h1 hu).1, by simp⟩, fun hp => ⟨(h2 hp).1, by simp⟩,
          fun _ => by simp⟩
      · simp [shapeOK]
  | pollReady pic h =>
    simp [shapeOK, pollReadyItem, (h2 h).1]
  | markAd h =>
    obtain ⟨ha, _⟩ := h
    simp [shapeOK, markInProgressItem, ha]
  | adSuccess id h =>
    simp [shapeOK, adSuccessItem]
  | adFail =>
    unfold handleAdFailure
    split
    · exact ⟨fun hu => ⟨(h1 hu).1, by simp⟩, fun hp => ⟨(h2 hp).1, by simp⟩,
        fun _ => by simp⟩
    · split
      · exact ⟨fun hu => ⟨(h1 hu).1, by simp⟩, fun hp => ⟨(h2 hp).1, by simp⟩,
          fun _ => by simp⟩
      · simp [shapeOK]
  | retryReset h =>
    simp only [shapeOK, retryResetItem]
    split
    · next hv => simp [hv.1]
    · next =>
      split
      · next hv2 => simp [hv2.1]
      · next => simp

theorem retryInv_step {mr : Nat} {m m' : FbLaunchMediaState} (hmr : 1 ≤ mr)
    (hi : retryInv mr m) (hs : shapeOK m) (st : ItemStep mr m m') :
    retryInv mr m' := by
  obtain ⟨a, b⟩ := hi
  cases st with
  | markUpload h =>
    obtain ⟨_, _, hq⟩ := h
    have hnf : m.status ≠ .failed := by rcases hq with hq | hq <;> simp [hq]
    exact ⟨fun _ => a hnf, fun _ => b hnf⟩
  | uploadSuccess id h =>
    have hnf : m.status ≠ .failed := by simp [h.2.2]
    exact ⟨fun _ => a hnf, fun _ => b hnf⟩
  | uploadFail hg =>
    unfold handleUploadFailure
    split
    · next hc =>
      have hnf : m.status ≠ .failed := by
        intro hf
        rcases hg hf with h | h
        · exact hc.1 h
        · rw [h] at hc; exact Bool.false_ne_true hc.2
      refine ⟨fun _ => ?_, by simp⟩
      show m.retryCount + 1 ≤ mr
      have := b hnf (by simpa using hc.1)
      omega
    · split
      · next hlt => exact ⟨fun _ => Nat.le_of_lt hlt, fun _ _ => hlt⟩
      · next => exact ⟨by simp, by simp⟩
  | pollReady pic h =>
    have hnf : m.status ≠ .failed := (hs.2.1 h).2
    exact ⟨fun _ => a hnf, fun _ => b hnf⟩
  | markAd h =>
    obtain ⟨_, hq⟩ := h
    have hnf : m.status ≠ .failed := by rcases hq with hq | hq <;> simp [hq]
    exact ⟨fun _ => a hnf, fun _ => b hnf⟩
  | adSuccess id h =>
    have hnf : m.status ≠ .failed := by simp [h.2]
    exact ⟨fun _ => a hnf, fun _ => b hnf⟩
  | adFail hg =>
    unfold handleAdFailure
    split
    · next hc =>
      have hnf : m.status ≠ .failed := by
        intro hf
        rcases hg hf hc.1 with h | h
        · exact hc.2.1 h
        · rw [h] at hc; exact Bool.false_ne_true hc.2.2
      refine ⟨fun _ => ?_, by simp⟩
      show m.retryCount + 1 ≤ mr
      have := b hnf (by simpa using hc.2.1)
      omega
    · split
      · next hlt => exact ⟨fun _ => Nat.le_of_lt hlt, fun _ _ => hlt⟩
      · next => exact ⟨by simp, by simp⟩
  | retryReset h =>
    refine ⟨fun _ => ?_, fun _ _ => ?_⟩
    · simp [retryResetItem]
    · simp [retryResetItem]; omega

theorem itemReach_shape {mr : Nat} {m : FbLaunchMediaState}
    (h : ItemReach mr m) : shapeOK m := by
  induction h with
  | init inp =>
    unfold shapeOK initMediaItem
    split
    · next hv => simp [hv.1]
    · next => simp
  | step _ st ih => exact shapeOK_step ih st

theorem itemReach_retryInv {mr : Nat} {m : FbLaunchMediaState} (hmr : 1 ≤ mr)
    (h : ItemReach mr m) : retryInv mr m := by
  induction h with
  | init inp =>
    refine ⟨fun _ => ?_, fun _ _ => ?_⟩
    · simp [initMediaItem]
    · simp [initMediaItem]; omega
  | step hr st ih => exact retryInv_step hmr ih (itemReach_shape hr) st

/-- `ItemStep` plus the check-library fast-forward, which `checkLibrary`
applies to any video whose library entry is ready, regardless of the video's
current stage or status (source lines 418-426; on a fresh run every video is
still at upload/queued, but a second `start()` or `runPhase('check')` applies
it to videos in any state): the full set of per-item mutations the controller
performs. -/
inductive ItemStepFull (mr : Nat) : FbLaunchMediaState → FbLaunchMediaState → Prop
  | base {m m' : FbLaunchMediaState} : ItemStep mr m m' → ItemStepFull mr m m'
  | checkHit (m : FbLaunchMediaState) (id pic : String) (h : m.type = .video) :
      ItemStepFull mr m (checkHitItem id pic m)

/-- A media item state reachable from initialization under the full per-item
transition system, check-library fast-forward included. -/
inductive ItemReachFull (mr : Nat) : FbLaunchMediaState → Prop
  | init (inp : FbLaunchMediaInput) : ItemReachFull mr (initMediaItem inp)
  | step {m m' : FbLaunchMediaState} :
      ItemReachFull mr m → ItemStepFull mr m m' → ItemReachFull mr m'

theorem itemReach_full {mr : Nat} {m : FbLaunchMediaState} (h : ItemReach mr m) :
    ItemReachFull mr m := by
  induction h with
  | init inp => exact .init inp
  | step hr st ih => exact .step ih (.base st)

theorem shapeOK_stepFull {mr : Nat} {m m' : FbLaunchMediaState} (hs : shapeOK m)
    (st : ItemStepFull mr m m') : shapeOK m' := by
  cases st with
  | base h => exact shapeOK_step hs h
  | checkHit id pic h => simp [shapeOK, checkHitItem]

theorem itemReachFull_shape {mr : Nat} {m : FbLaunchMediaState}
    (h : ItemReachFull mr m) : shapeOK m := by
  induction h with
  | init inp => exact itemReach_shape (@ItemReach.init mr inp)
  | step _ st ih => exact shapeOK_stepFull ih st

theorem length_filter_cons (p : α → Bool) (a : α) (l : List α) :
    ((a :: l).filter p).length = (if p a = true then 1 else 0) + (l.filter p).length := by
  by_cases h : p a = true <;> simp [List.filter_cons, h, Nat.add_comm]

theorem shape_indicator_core (ty : MediaType) (stg : MediaStage) (sts : MediaStatus)
    (h1 : stg = .upload → ty = .video ∧
      (sts = .queued ∨ sts = .in_progress ∨ sts = .retry))
    (h2 : stg = .poll → ty = .video ∧ sts ≠ .failed)
    (h3 : stg = .ad → sts ≠ .completed) :
    (if (ty == MediaType.video && stg == MediaStage.upload &&
          sts == MediaStatus.queued) = true then 1 else 0) +
    (if (ty == MediaType.video && stg == MediaStage.upload &&
          sts == MediaStatus.in_progress) = true then 1 else 0) +
    (if (ty == MediaType.video && stg == MediaStage.upload &&
          sts == MediaStatus.failed) = true then 1 else 0) +
    (if (ty == MediaType.video && stg == MediaStage.poll) = true then 1 else 0) +
    (if (stg == MediaStage.ad &&
          (sts == MediaStatus.queued || sts == MediaStatus.retry)) = true
      then 1 else 0) +
    (if (stg == MediaStage.ad && sts == MediaStatus.in_progress) = true
      then 1 else 0) +
    (if (stg == MediaStage.ad && sts == MediaStatus.failed) = true
      then 1 else 0) +
    (if (stg == MediaStage.done) = true then 1 else 0) +
    (if (stg == MediaStage.failed) = true then 1 else 0) +
    (if (ty == MediaType.video && stg == MediaStage.upload &&
          sts == MediaStatus.retry) = true then 1 else 0) = 1 := by
  revert h1 h2 h3
  cases ty <;> cases stg <;> cases sts <;> decide

theorem shape_indicator (m : FbLaunchMediaState) (hm : shapeOK m) :
    (if (m.type == MediaType.video && m.stage == MediaStage.upload &&
          m.status == MediaStatus.queued) = true then 1 else 0) +
    (if (m.type == MediaType.video && m.stage == MediaStage.upload &&
          m.status == MediaStatus.in_progress) = true then 1 else 0) +
    (if (m.type == MediaType.video && m.stage == MediaStage.upload &&
          m.status == MediaStatus.failed) = true then 1 else 0) +
    (if (m.type == MediaType.video && m.stage == MediaStage.poll) = true then 1 else 0) +
    (if (m.stage == MediaStage.ad &&
          (m.status == MediaStatus.queued || m.status == MediaStatus.retry)) = true
      then 1 else 0) +
    (if (m.stage == MediaStage.ad && m.status == MediaStatus.in_progress) = true
      then 1 else 0) +
    (if (m.stage == MediaStage.ad && m.status == MediaStatus.failed) = true
      then 1 else 0) +
    (if (m.stage == MediaStage.done) = true then 1 else 0) +
    (if (m.stage == MediaStage.failed) = true then 1 else 0) +
    (if (m.type == MediaType.video && m.stage == MediaStage.upload &&
          m.status == MediaStatus.retry) = true then 1 else 0) = 1 := by
  obtain ⟨h1, h2, h3⟩ := hm
  exact shape_indicator_core m.type m.stage m.status h1 h2 h3

theorem statsSum_shape (media : List FbLaunchMediaState)
    (h : ∀ m ∈ media, shapeOK m) :
    statsSum (getStats media) + uploadRetryCount media = (getStats media).total := by
  induction media with
  | nil => rfl
  | cons m t ih =>
    have hm := shape_indicator m (h m (List.mem_cons_self m t))
    have ht := ih fun x hx => h x (List.mem_cons_of_mem m hx)
    simp only [statsSum, getStats, uploadRetryCount, List.length_cons,
      length_filter_cons] at ht ⊢
    omega

-- =============================================================================
-- Shared concrete items and access lemmas
-- =============================================================================

/-- A fresh video with a live fallback URL, selected for upload and then failed
once by the per-item handler (its fallback branch). Reachable for every
`maxRetries` value. -/
def fallbackFailedItem (mr : Nat) : FbLaunchMediaState :=
  handleUploadFailure mr (markInProgressItem (initMediaItem
    ⟨.video, "v", "u", some "f", none⟩))

theorem fallbackFailedItem_reach (mr : Nat) : ItemReach mr (fallbackFailedItem mr) :=
  .step (.step (.init ⟨.video, "v", "u", some "f", none⟩)
      (.markUpload _ (by refine ⟨rfl, by decide, Or.inl rfl⟩)))
    (.uploadFail _ (by decide))

theorem getI_map (f : FbLaunchMediaState → FbLaunchMediaState)
    (l : List FbLaunchMediaState) (i : Nat) (hi : i < l.length) :
    getI (l.map f) i = f (getI l i) := by
  unfold getI
  rw [List.getD_eq_getElem?_getD, List.getD_eq_getElem?_getD, List.getElem?_map,
    List.getElem?_eq_getElem hi]
  rfl

-- =============================================================================
-- Claim C3
-- =============================================================================

/-- C3 counterexample: with `maxRetries = 0` the fallback branch of
`handleUploadFailure` produces a reachable item whose status is `retry` while
`retryCount = 1 > 0 = maxRetries`, so the claimed invariant fails as stated
(it does not hold for every configuration of the pipeline). -/
theorem c3_counterexample :
    ItemReach 0 (fallbackFailedItem 0) ∧
    (fallbackFailedItem 0).status ≠ .failed ∧
    ¬ ((fallbackFailedItem 0).retryCount ≤ 0) :=
  ⟨fallbackFailedItem_reach 0, by decide, by decide⟩

/-- C3 (amended): provided `maxRetries ≥ 1` (the source default is 3), every
item reachable under the pipeline's per-item transitions — initialization,
selection marking, upload/poll/ad successes, upload/ad failure handling
including the budget-unchecked fallback branch, and `retryFailed` resets —
satisfies `retryCount ≤ maxRetries` whenever its status is not `failed`. -/
theorem c3_retryCount_le_maxRetries (mr : Nat) (m : FbLaunchMediaState)
    (hmr : 1 ≤ mr) (hr : ItemReach mr m) (hnf : m.status ≠ .failed) :
    m.retryCount ≤ mr :=
  (itemReach_retryInv hmr hr).1 hnf

/-- C3 witness: the amended theorem applied to a concrete reachable item
(one fallback failure under the default budget). -/
theorem c3_witness :
    (fallbackFailedItem 3).status ≠ .failed ∧ (fallbackFailedItem 3).retryCount ≤ 3 :=
  ⟨by decide,
    c3_retryCount_le_maxRetries 3 (fallbackFailedItem 3) (by decide)
      (fallbackFailedItem_reach 3) (by decide)⟩

-- =============================================================================
-- Claim C4
-- =============================================================================

/-- C4 counterexample: a reachable state containing one video at stage
`upload`, status `retry` (after a handled upload failure with a fallback): the
nine bucket counts of `getStats` sum to 0, but `total = 1`, so the claimed
partition fails exactly in the state the claim singles out. -/
theorem c4_counterexample :
    (∀ m ∈ [fallbackFailedItem 3], ItemReachFull 3 m) ∧
    statsSum (getStats [fallbackFailedItem 3]) ≠ (getStats [fallbackFailedItem 3]).total := by
  refine ⟨?_, by decide⟩
  intro m hm
  rw [List.mem_singleton] at hm
  exact hm ▸ itemReach_full (fallbackFailedItem_reach 3)

/-- C4 (amended): in every state reachable under the controller's full
per-item transition system — initialization, the check-library fast-forward
(which applies to videos of any stage or status), selection marking,
upload/poll/ad successes, upload/ad failure handling and `retryFailed`
resets — the nine bucket counts of `getStats` sum to `total` minus the number
of videos sitting at stage `upload` with status `retry` — those are counted
by no bucket (the upload buckets only count `queued`, `in_progress` and
`failed`); the sum equals `total` exactly when no item awaits an upload
retry. -/
theorem c4_stats_partition (mr : Nat) (media : List FbLaunchMediaState)
    (h : ∀ m ∈ media, ItemReachFull mr m) :
    statsSum (getStats media) + uploadRetryCount media = (getStats media).total :=
  statsSum_shape media fun m hm => itemReachFull_shape (h m hm)

/-- C4 witness: the amended partition identity evaluated on a concrete
reachable state with one pending upload retry. -/
theorem c4_witness :
    statsSum (getStats [fallbackFailedItem 3]) + uploadRetryCount [fallbackFailedItem 3] =
      (getStats [fallbackFailedItem 3]).total :=
  c4_stats_partition 3 [fallbackFailedItem 3] fun m hm => by
    rw [List.mem_singleton] at hm
    exact hm ▸ itemReach_full (fallbackFailedItem_reach 3)

-- =============================================================================
-- Claim C5
-- =============================================================================

/-- A controller state with a started clock and stale `elapsed`. -/
def c5State : FbLaunchState :=
  { initState [] with startTime := some 0 }

/-- C5 counterexample: `getState` does not recompute the elapsed seconds at
the time of the call — at clock time 5000 with `startTime = 0` the snapshot
still carries the stale `elapsed = 0` instead of the fresh value 5 (only
`emitProgress` refreshes `elapsed`). -/
theorem c5_counterexample :
    ¬ ((getState c5State).elapsed = elapsedQ 5000 c5State.startTime) := by
  simp only [getState, c5State, initState, elapsedQ]
  norm_num

/-- C5 (amended): `getState()` returns the spread copy of the state with the
aggregate stats freshly recomputed and nothing else changed: `elapsed` keeps
whatever value the last `emitProgress` stored, and the `media` list of the
snapshot is the live one (the spread copy is shallow). -/
theorem c5_getState_shallow (s : FbLaunchState) :
    (getState s).stats = some (getStats s.media) ∧
    (getState s).elapsed = s.elapsed ∧
    (getState s).media = s.media ∧
    (getState s).phase = s.phase ∧
    (getState s).isRunning = s.isRunning ∧
    (getState s).isStopped = s.isStopped ∧
    (getState s).campaignId = s.campaignId ∧
    (getState s).adsetId = s.adsetId ∧
    (getState s).tick = s.tick ∧
    (getState s).rate = s.rate ∧
    (getState s).startTime = s.startTime ∧
    (getState s).error = s.error :=
  ⟨rfl, rfl, rfl, rfl, rfl, rfl, rfl, rfl, rfl, rfl, rfl, rfl⟩

-- =============================================================================
-- Claim C8
-- =============================================================================

/-- C8: `retryFailed` turns every item whose status is `failed` into
`status = retry`, `retryCount = 0`, cleared error, with the stage recomputed
from current evidence (`upload` for a video without a truthy platform video id,
`poll` for a video without a truthy thumbnail, else `ad`); every other item is
untouched; and the run is not restarted (`phase` and `isRunning` unchanged). -/
theorem c8_retryFailed (clock : Nat) (s : FbLaunchState) (i : Nat)
    (hi : i < s.media.length) :
    ((getI s.media i).status = .failed →
      (getI (retryFailed clock s).media i).status = .retry ∧
      (getI (retryFailed clock s).media i).retryCount = 0 ∧
      (getI (retryFailed clock s).media i).error = none ∧
      (getI (retryFailed clock s).media i).stage =
        (if (getI s.media i).type = .video ∧ ¬ strTruthy (getI s.media i).fbVideoId
          then .upload
          else if (getI s.media i).type = .video ∧
              ¬ strTruthy (getI s.media i).thumbnailUrl
            then .poll else .ad)) ∧
    ((getI s.media i).status ≠ .failed →
      getI (retryFailed clock s).media i = getI s.media i) ∧
    (retryFailed clock s).phase = s.phase ∧
    (retryFailed clock s).isRunning = s.isRunning := by
  have hmedia : (retryFailed clock s).media = s.media.map retryFailedItem := rfl
  refine ⟨fun hf => ?_, fun hf => ?_, rfl, rfl⟩
  · rw [hmedia, getI_map _ _ _ hi]
    unfold retryFailedItem
    rw [if_pos hf]
    exact ⟨rfl, rfl, rfl, rfl⟩
  · rw [hmedia, getI_map _ _ _ hi]
    unfold retryFailedItem
    rw [if_neg hf]

/-- C8 witness: the spec's own instance — an item at `stage = failed` of type
video with `fbVideoId = null` ends at `stage = upload`, `status = retry`,
`retryCount = 0`. -/
theorem c8_witness :
    (getI (retryFailed 0 { initState [] with
      media := [{ fallbackFailedItem 0 with stage := .failed, status := .failed }] }).media 0).status = .retry ∧
    (getI (retryFailed 0 { initState [] with
      media := [{ fallbackFailedItem 0 with stage := .failed, status := .failed }] }).media 0).retryCount = 0 ∧
    (getI (retryFailed 0 { initState [] with
      media := [{ fallbackFailedItem 0 with stage := .failed, status := .failed }] }).media 0).stage = .upload := by
  have h := c8_retryFailed 0 { initState [] with
      media := [{ fallbackFailedItem 0 with stage := .failed, status := .failed }] } 0
    (by decide) |>.1 (by decide)
  refine ⟨h.1, h.2.1, ?_⟩
  rw [h.2.2.2]
  decide

-- =============================================================================
-- Claim C6
-- =============================================================================

/-- The input of the C6 scenario: one video with a fallback URL. -/
def c6Input : FbLaunchMediaInput :=
  ⟨.video, "v", "u", some "fb", none⟩

/-- C6 oracle: the first upload batch call returns a non-200 per-item code,
the second returns code 200 with an id. -/
def c6Oracle : Nat → BatchResp
  | 0 => .arr [.errCode] 7
  | _ => .arr [.ok (some "vid1")] 9

/-- C6: for any video with an unused fallback URL failing its first upload
attempt, the failure handler leaves `status = retry`, `usedFallback = true`,
`retryCount = 1` and the stage unchanged (`upload`); and in the concrete
scenario run, the next upload pass sends the fallback URL (not the primary
one) for that item, and on a code-200 response carrying an id the item moves
to `stage = poll`, `status = queued` with the returned video id. -/
theorem c6_fallback_flow (v : FbLaunchMediaState) (mr : Nat)
    (hv : v.usedFallback = false) (hfb : strTruthy v.fallbackUrl = true)
    (hrc : v.retryCount = 0) (hstage : v.stage = .upload) :
    ((handleUploadFailure mr v).status = .retry ∧
     (handleUploadFailure mr v).usedFallback = true ∧
     (handleUploadFailure mr v).retryCount = 1 ∧
     (handleUploadFailure mr v).stage = .upload) ∧
    ((getI (uploadVideos {} (fun _ => false) c6Oracle
        (mkWorld (initState [c6Input]))).st.media 0).status = .retry ∧
     (getI (uploadVideos {} (fun _ => false) c6Oracle
        (mkWorld (initState [c6Input]))).st.media 0).usedFallback = true ∧
     (getI (uploadVideos {} (fun _ => false) c6Oracle
        (mkWorld (initState [c6Input]))).st.media 0).retryCount = 1 ∧
     (getI (uploadVideos {} (fun _ => false) c6Oracle
        (mkWorld (initState [c6Input]))).st.media 0).stage = .upload ∧
     (uploadVideos {} (fun _ => false) c6Oracle
        (uploadVideos {} (fun _ => false) c6Oracle
          (mkWorld (initState [c6Input])))).trace =
      (uploadVideos {} (fun _ => false) c6Oracle
        (mkWorld (initState [c6Input]))).trace ++
        [Ev.call (.uploadVideoBatch [("v", "fb")])] ∧
     (getI (uploadVideos {} (fun _ => false) c6Oracle
        (uploadVideos {} (fun _ => false) c6Oracle
          (mkWorld (initState [c6Input])))).st.media 0).stage = .poll ∧
     (getI (uploadVideos {} (fun _ => false) c6Oracle
        (uploadVideos {} (fun _ => false) c6Oracle
          (mkWorld (initState [c6Input])))).st.media 0).status = .queued ∧
     (getI (uploadVideos {} (fun _ => false) c6Oracle
        (uploadVideos {} (fun _ => false) c6Oracle
          (mkWorld (initState [c6Input])))).st.media 0).fbVideoId = some "vid1") := by
  constructor
  · unfold handleUploadFailure
    rw [if_pos ⟨by simp [hv], hfb⟩]
    exact ⟨rfl, rfl, by simp [hrc], hstage ▸ rfl⟩
  · decide

/-- C6 witness: the handler part applied to the scenario's own item. -/
theorem c6_witness :
    (handleUploadFailure 3 (markInProgressItem (initMediaItem c6Input))).status = .retry ∧
    (handleUploadFailure 3 (markInProgressItem (initMediaItem c6Input))).usedFallback = true ∧
    (handleUploadFailure 3 (markInProgressItem (initMediaItem c6Input))).retryCount = 1 :=
  let h := c6_fallback_flow (markInProgressItem (initMediaItem c6Input)) 3
    (by decide) (by decide) (by decide) (by decide)
  ⟨h.1.1, h.1.2.1, h.1.2.2.1⟩

-- =============================================================================
-- Preservation lemmas: which state fields the executors leave alone
-- =============================================================================

/-- The scalar fields no batch loop ever writes. -/
def scal (w : World) :
    Bool × Bool × Option String × Option String × LaunchPhase × Nat × Option Nat :=
  (w.st.isStopped, w.st.isRunning, w.st.campaignId, w.st.adsetId, w.st.phase,
    w.st.tick, w.st.startTime)

theorem scal_eq_iff {w w' : World} : scal w = scal w' ↔
    (w.st.isStopped = w'.st.isStopped ∧ w.st.isRunning = w'.st.isRunning ∧
     w.st.campaignId = w'.st.campaignId ∧ w.st.adsetId = w'.st.adsetId ∧
     w.st.phase = w'.st.phase ∧ w.st.tick = w'.st.tick ∧
     w.st.startTime = w'.st.startTime) := by
  simp [scal, Prod.ext_iff]

theorem adsCallCount_append (a b : List Ev) :
    adsCallCount (a ++ b) = adsCallCount a + adsCallCount b := by
  simp [adsCallCount, List.filter_append]

theorem callCount_append (a b : List Ev) :
    callCount (a ++ b) = callCount a + callCount b := by
  simp [callCount, List.filter_append]

theorem uploadLoop_scal (opts : FbLaunchOptions) (stopAt : Nat → Bool)
    (oracle : Nat → BatchResp) :
    ∀ (bs : List (List Nat)) (i : Nat) (w : World),
      scal (uploadLoop opts stopAt oracle bs i w) = scal w := by
  intro bs
  induction bs with
  | nil => intro i w; rfl
  | cons b bs ih =>
    intro i w
    simp only [uploadLoop]
    split
    · rfl
    · exact (ih _ _).trans rfl

theorem adLoop_scal (opts : FbLaunchOptions) (stopAt : Nat → Bool) (oracle : Oracle) :
    ∀ (bs : List (List Nat)) (i : Nat) (w : World),
      scal (adLoop opts stopAt oracle bs i w) = scal w := by
  intro bs
  induction bs with
  | nil => intro i w; rfl
  | cons b bs ih =>
    intro i w
    simp only [adLoop]
    split
    · rfl
    · exact (ih _ _).trans rfl

theorem uploadLoop_adsCalls (opts : FbLaunchOptions) (stopAt : Nat → Bool)
    (oracle : Nat → BatchResp) :
    ∀ (bs : List (List Nat)) (i : Nat) (w : World),
      adsCallCount (uploadLoop opts stopAt oracle bs i w).trace =
        adsCallCount w.trace := by
  intro bs
  induction bs with
  | nil => intro i w; rfl
  | cons b bs ih =>
    intro i w
    simp only [uploadLoop]
    split
    · rfl
    · rw [ih]
      by_cases hi : i > 0 <;>
        simp [hi, uploadStep, delayW, callW, adsCallCount_append, adsCallCount]

/-- `uploadVideos` only writes `phase` (to `uploading`), `media`, `rate` and
the trace: the lifecycle flags, ids, tick and start time are untouched, and it
issues no `createAdsBatch` call. -/
theorem uploadVideos_preserves (opts : FbLaunchOptions) (stopAt : Nat → Bool)
    (oracle : Nat → BatchResp) (w : World) :
    (uploadVideos opts stopAt oracle w).st.isStopped = w.st.isStopped ∧
    (uploadVideos opts stopAt oracle w).st.isRunning = w.st.isRunning ∧
    (uploadVideos opts stopAt oracle w).st.campaignId = w.st.campaignId ∧
    (uploadVideos opts stopAt oracle w).st.adsetId = w.st.adsetId ∧
    (uploadVideos opts stopAt oracle w).st.tick = w.st.tick ∧
    (uploadVideos opts stopAt oracle w).st.startTime = w.st.startTime ∧
    adsCallCount (uploadVideos opts stopAt oracle w).trace = adsCallCount w.trace := by
  simp only [uploadVideos]
  split
  · exact ⟨rfl, rfl, rfl, rfl, rfl, rfl, rfl⟩
  · split
    · exact ⟨rfl, rfl, rfl, rfl, rfl, rfl, rfl⟩
    · have hs := scal_eq_iff.mp (uploadLoop_scal opts stopAt oracle
        (chunkList opts.uploadBatchSize (uploadSel (emitW { w with st := { w.st with phase := .uploading } }).st.media)) 0
        (uploadMarkedWorld (emitW { w with st := { w.st with phase := .uploading } })))
      have hc := uploadLoop_adsCalls opts stopAt oracle
        (chunkList opts.uploadBatchSize (uploadSel (emitW { w with st := { w.st with phase := .uploading } }).st.media)) 0
        (uploadMarkedWorld (emitW { w with st := { w.st with phase := .uploading } }))
      exact ⟨hs.1, hs.2.1, hs.2.2.1, hs.2.2.2.1, hs.2.2.2.2.2.1,
        hs.2.2.2.2.2.2, hc⟩

/-- `checkLibrary` only writes `phase` (to `checking`), `media`, `rate` and the
trace; it issues exactly one `checkLibraryByName` call (or none), never an ads
call. -/
theorem checkLibrary_preserves (oracle : Oracle) (w : World) :
    (checkLibrary oracle w).st.isStopped = w.st.isStopped ∧
    (checkLibrary oracle w).st.isRunning = w.st.isRunning ∧
    (checkLibrary oracle w).st.campaignId = w.st.campaignId ∧
    (checkLibrary oracle w).st.adsetId = w.st.adsetId ∧
    (checkLibrary oracle w).st.tick = w.st.tick ∧
    (checkLibrary oracle w).st.startTime = w.st.startTime ∧
    adsCallCount (checkLibrary oracle w).trace = adsCallCount w.trace := by
  simp only [checkLibrary]
  split
  · exact ⟨rfl, rfl, rfl, rfl, rfl, rfl, rfl⟩
  · split
    · exact ⟨rfl, rfl, rfl, rfl, rfl, rfl, rfl⟩
    · split
      · exact ⟨rfl, rfl, rfl, rfl, rfl, rfl, by
          simp [emitW, callW, adsCallCount_append, adsCallCount]⟩
      · exact ⟨rfl, rfl, rfl, rfl, rfl, rfl, by
          simp [emitW, callW, adsCallCount_append, adsCallCount]⟩

theorem pollVideos_preserves (oracle : Oracle) (w : World) :
    (pollVideos oracle w).st.isStopped = w.st.isStopped ∧
    (pollVideos oracle w).st.isRunning = w.st.isRunning ∧
    (pollVideos oracle w).st.campaignId = w.st.campaignId ∧
    (pollVideos oracle w).st.adsetId = w.st.adsetId ∧
    (pollVideos oracle w).st.tick = w.st.tick ∧
    (pollVideos oracle w).st.startTime = w.st.startTime := by
  simp only [pollVideos]
  split
  · exact ⟨rfl, rfl, rfl, rfl, rfl, rfl⟩
  · split
    · exact ⟨rfl, rfl, rfl, rfl, rfl, rfl⟩
    · split
      · exact ⟨rfl, rfl, rfl, rfl, rfl, rfl⟩
      · exact ⟨rfl, rfl, rfl, rfl, rfl, rfl⟩

theorem createAds_preserves (opts : FbLaunchOptions) (stopAt : Nat → Bool)
    (oracle : Oracle) (w : World) :
    (createAds opts stopAt oracle w).st.isStopped = w.st.isStopped ∧
    (createAds opts stopAt oracle w).st.isRunning = w.st.isRunning ∧
    (createAds opts stopAt oracle w).st.campaignId = w.st.campaignId ∧
    (createAds opts stopAt oracle w).st.adsetId = w.st.adsetId ∧
    (createAds opts stopAt oracle w).st.tick = w.st.tick ∧
    (createAds opts stopAt oracle w).st.startTime = w.st.startTime := by
  simp only [createAds]
  split
  · exact ⟨rfl, rfl, rfl, rfl, rfl, rfl⟩
  · split
    · exact ⟨rfl, rfl, rfl, rfl, rfl, rfl⟩
    · have hs := scal_eq_iff.mp (adLoop_scal opts stopAt oracle
        (chunkList opts.adBatchSize
          ((List.range ({ w with st := { w.st with phase := .creating_ads } }).st.media.length).filter fun i =>
            adCandidate (getI ({ w with st := { w.st with phase := .creating_ads } }).st.media i))) 0
        { w with st := { w.st with phase := .creating_ads } })
      exact ⟨hs.1, hs.2.1, hs.2.2.1, hs.2.2.2.1, hs.2.2.2.2.2.1, hs.2.2.2.2.2.2⟩

-- =============================================================================
-- Claim C7: selection, marking, batching and dispatch pattern of uploadVideos
-- =============================================================================

theorem getI_set (l : List FbLaunchMediaState) (i k : Nat) (a : FbLaunchMediaState) :
    getI (l.set i a) k = if i = k ∧ i < l.length then a else getI l k := by
  unfold getI
  rw [List.getD_eq_getElem?_getD, List.getD_eq_getElem?_getD, List.getElem?_set]
  by_cases h1 : i = k
  · subst h1
    by_cases h2 : i < l.length
    · simp [h2]
    · simp [h2, List.getElem?_eq_none (Nat.le_of_not_lt h2)]
  · simp [h1]

theorem handleUploadFailure_name (mr : Nat) (v : FbLaunchMediaState) :
    (handleUploadFailure mr v).name = v.name := by
  unfold handleUploadFailure
  split
  · rfl
  · split <;> rfl

theorem failBatchUpload_name (mr : Nat) :
    ∀ (idxs : List Nat) (med : List FbLaunchMediaState) (k : Nat),
      (getI (failBatchUpload mr idxs med) k).name = (getI med k).name := by
  intro idxs
  induction idxs with
  | nil => intro med k; rfl
  | cons i is ih =>
    intro med k
    rw [show failBatchUpload mr (i :: is) med =
      failBatchUpload mr is (med.set i (handleUploadFailure mr (getI med i))) from rfl]
    rw [ih, getI_set]
    split
    · next h => rw [← h.1, handleUploadFailure_name]
    · rfl

theorem procUploadItems_name (mr : Nat) :
    ∀ (rs : List UploadItemResp) (idxs : List Nat) (med : List FbLaunchMediaState)
      (k : Nat),
      (getI (procUploadItems mr rs idxs med).1 k).name = (getI med k).name := by
  intro rs
  induction rs with
  | nil => intro idxs med k; rfl
  | cons r rs ih =>
    intro idxs med k
    cases idxs with
    | nil => cases r <;> rfl
    | cons i is =>
      cases r with
      | okBadJson => rfl
      | ok bodyId =>
        by_cases hb : strTruthy bodyId = true
        · rw [show procUploadItems mr (.ok bodyId :: rs) (i :: is) med =
            if strTruthy bodyId then
              procUploadItems mr rs is
                (med.set i (uploadSuccessItem (bodyId.getD "") (getI med i)))
            else
              procUploadItems mr rs is
                (med.set i (handleUploadFailure mr (getI med i))) from rfl]
          rw [if_pos hb, ih, getI_set]
          split
          · next h => rw [← h.1]; rfl
          · rfl
        · rw [show procUploadItems mr (.ok bodyId :: rs) (i :: is) med =
            if strTruthy bodyId then
              procUploadItems mr rs is
                (med.set i (uploadSuccessItem (bodyId.getD "") (getI med i)))
            else
              procUploadItems mr rs is
                (med.set i (handleUploadFailure mr (getI med i))) from rfl]
          rw [if_neg hb, ih, getI_set]
          split
          · next h => rw [← h.1, handleUploadFailure_name]
          · rfl
      | errCode =>
        rw [show procUploadItems mr (.errCode :: rs) (i :: is) med =
          procUploadItems mr rs is
            (med.set i (handleUploadFailure mr (getI med i))) from rfl]
        rw [ih, getI_set]
        split
        · next h => rw [← h.1, handleUploadFailure_name]
        · rfl

theorem runUploadBatch_name (mr : Nat) (med : List FbLaunchMediaState)
    (idxs : List Nat) (r : BatchResp) (k : Nat) :
    (getI (runUploadBatch mr med idxs r).1 k).name = (getI med k).name := by
  cases r with
  | arr rs rate =>
    show (getI (if (procUploadItems mr rs idxs med).2 then
        failBatchUpload mr idxs (procUploadItems mr rs idxs med).1
      else (procUploadItems mr rs idxs med).1) k).name = _
    split
    · rw [failBatchUpload_name, procUploadItems_name]
    · rw [procUploadItems_name]
  | nonArray rate => exact failBatchUpload_name mr idxs med k
  | exn => exact failBatchUpload_name mr idxs med k

theorem markSel_name :
    ∀ (sel : List Nat) (med : List FbLaunchMediaState) (k : Nat),
      (getI (markSel sel med) k).name = (getI med k).name := by
  intro sel
  induction sel with
  | nil => intro med k; rfl
  | cons i is ih =>
    intro med k
    rw [show markSel (i :: is) med =
      markSel is (med.set i (markInProgressItem (getI med i))) from rfl]
    rw [ih, getI_set]
    split
    · next h => rw [← h.1]; rfl
    · rfl

theorem markSel_keeps_in_progress :
    ∀ (sel : List Nat) (med : List FbLaunchMediaState) (i : Nat),
      (getI med i).status = .in_progress →
      (getI (markSel sel med) i).status = .in_progress := by
  intro sel
  induction sel with
  | nil => intro med i h; exact h
  | cons j js ih =>
    intro med i h
    rw [show markSel (j :: js) med =
      markSel js (med.set j (markInProgressItem (getI med j))) from rfl]
    apply ih
    rw [getI_set]
    split
    · rfl
    · exact h

theorem markSel_mem_status :
    ∀ (sel : List Nat) (med : List FbLaunchMediaState) (i : Nat),
      i ∈ sel → i < med.length →
      (getI (markSel sel med) i).status = .in_progress := by
  intro sel
  induction sel with
  | nil => intro med i h; exact absurd h (List.not_mem_nil i)
  | cons j js ih =>
    intro med i hmem hlen
    rw [show markSel (j :: js) med =
      markSel js (med.set j (markInProgressItem (getI med j))) from rfl]
    rcases List.mem_cons.mp hmem with hij | hmem'
    · subst hij
      apply markSel_keeps_in_progress
      rw [getI_set, if_pos ⟨rfl, hlen⟩]
      rfl
    · exact ih _ i hmem' (by rw [List.length_set]; exact hlen)

theorem mem_uploadSel_lt {med : List FbLaunchMediaState} {i : Nat}
    (h : i ∈ uploadSel med) : i < med.length :=
  List.mem_range.mp (List.mem_filter.mp h).1

/-- The dispatch pattern with one stagger delay before every batch. -/
def delayedUploadEvents (stagger : Nat) (ps : List (List (String × String))) :
    List Ev :=
  (ps.map fun q => [Ev.delayEv stagger, Ev.call (.uploadVideoBatch q)]).flatten

/-- The dispatch pattern the spec prescribes for the upload stage: the batch
payloads in order, with one stagger delay before every batch after the first. -/
def staggeredUploadEvents (stagger : Nat) :
    List (List (String × String)) → List Ev
  | [] => []
  | p :: ps => Ev.call (.uploadVideoBatch p) :: delayedUploadEvents stagger ps

theorem uploadLoop_trace (opts : FbLaunchOptions) (oracle : Nat → BatchResp) :
    ∀ (bs : List (List Nat)) (i : Nat) (w : World),
      w.st.isStopped = false →
      ∃ ps : List (List (String × String)),
        ps.length = bs.length ∧
        (∀ j, (ps.getD j []).map Prod.fst =
          (bs.getD j []).map fun k => (getI w.st.media k).name) ∧
        (uploadLoop opts (fun _ => false) oracle bs i w).trace =
          w.trace ++ (if i = 0 then staggeredUploadEvents opts.uploadStaggerMs ps
            else delayedUploadEvents opts.uploadStaggerMs ps) := by
  intro bs
  induction bs with
  | nil =>
    intro i w hw
    refine ⟨[], rfl, fun j => rfl, ?_⟩
    cases i <;>
      simp [uploadLoop, staggeredUploadEvents, delayedUploadEvents]
  | cons b bs ih =>
    intro i w hw
    simp only [uploadLoop, hw, Bool.false_or, Bool.false_eq_true, if_false]
    obtain ⟨ps, hlen, hnames, htr⟩ := ih (i + 1) (uploadStep opts oracle b i w) hw
    refine ⟨(b.map fun j => ((getI w.st.media j).name, sendUrl (getI w.st.media j))) :: ps,
      by simpa using hlen, ?_, ?_⟩
    · intro j
      cases j with
      | zero => simp
      | succ j =>
        simp only [List.getD_cons_succ]
        rw [hnames j]
        refine List.map_congr_left fun k _ => ?_
        exact runUploadBatch_name opts.maxRetries w.st.media b (oracle w.nUp) k
    · rw [htr]
      cases i with
      | zero =>
        simp [uploadStep, callW, staggeredUploadEvents, delayedUploadEvents]
      | succ n =>
        simp [uploadStep, callW, delayW, delayedUploadEvents,
          staggeredUploadEvents, Nat.succ_ne_zero]

/-- Twelve fresh videos (scenario input of the spec). -/
def c7World : World :=
  mkWorld (initState ((List.range 12).map fun k =>
    ⟨.video, Nat.repr k, "u", none, none⟩))

/-- C7: the upload stage marks every selected item (the videos at stage
`upload` with status queued/retry) `in_progress` in the world from which the
batch loop starts, without having dispatched anything yet; it partitions the
selection into `uploadBatchSize`-chunks in selection order and dispatches them
strictly sequentially, each call carrying its chunk's item names, with one
stagger delay before every batch after the first; and on the concrete input of
12 fresh videos with batch size 10, exactly 2 upload calls are dispatched,
the second preceded by the stagger delay. -/
theorem c7_upload_batching (opts : FbLaunchOptions) (oracle : Nat → BatchResp)
    (w : World) (hw : w.st.isStopped = false)
    (hne : (uploadSel w.st.media).isEmpty = false) :
    (∀ i ∈ uploadSel w.st.media,
      (getI (uploadMarkedWorld (emitW { w with st := { w.st with phase := .uploading } })).st.media i).status
        = .in_progress) ∧
    (uploadMarkedWorld (emitW { w with st := { w.st with phase := .uploading } })).trace
      = w.trace ∧
    uploadVideos opts (fun _ => false) oracle w =
      uploadLoop opts (fun _ => false) oracle
        (chunkList opts.uploadBatchSize (uploadSel w.st.media)) 0
        (uploadMarkedWorld (emitW { w with st := { w.st with phase := .uploading } })) ∧
    (∃ ps : List (List (String × String)),
      ps.length = (chunkList opts.uploadBatchSize (uploadSel w.st.media)).length ∧
      (∀ j, (ps.getD j []).map Prod.fst =
        ((chunkList opts.uploadBatchSize (uploadSel w.st.media)).getD j []).map
          fun k => (getI w.st.media k).name) ∧
      (uploadVideos opts (fun _ => false) oracle w).trace =
        w.trace ++ staggeredUploadEvents opts.uploadStaggerMs ps) ∧
    ((uploadVideos {} (fun _ => false) (fun _ => .arr [] 0) c7World).trace =
      [Ev.call (.uploadVideoBatch ((List.range 10).map fun k => (Nat.repr k, "u"))),
       Ev.delayEv 1000,
       Ev.call (.uploadVideoBatch [(Nat.repr 10, "u"), (Nat.repr 11, "u")])] ∧
     callCount (uploadVideos {} (fun _ => false) (fun _ => .arr [] 0) c7World).trace = 2) := by
  have heq : uploadVideos opts (fun _ => false) oracle w =
      uploadLoop opts (fun _ => false) oracle
        (chunkList opts.uploadBatchSize (uploadSel w.st.media)) 0
        (uploadMarkedWorld (emitW { w with st := { w.st with phase := .uploading } })) := by
    have hne' : ¬ ((uploadSel (emitW { w with st := { w.st with phase := .uploading } }).st.media).isEmpty = true) := by
      have h0 : uploadSel (emitW { w with st := { w.st with phase := .uploading } }).st.media
          = uploadSel w.st.media := rfl
      rw [h0, hne]
      exact Bool.false_ne_true
    have hw' : ¬ (w.st.isStopped = true) := by
      rw [hw]; exact Bool.false_ne_true
    unfold uploadVideos
    rw [if_neg hw']
    exact if_neg hne'
  refine ⟨?_, rfl, heq, ?_, by decide⟩
  · intro i hi
    exact markSel_mem_status (uploadSel w.st.media) w.st.media i hi (mem_uploadSel_lt hi)
  · obtain ⟨ps, hlen, hnames, htr⟩ := uploadLoop_trace opts oracle
      (chunkList opts.uploadBatchSize (uploadSel w.st.media)) 0
      (uploadMarkedWorld (emitW { w with st := { w.st with phase := .uploading } })) hw
    refine ⟨ps, hlen, ?_, ?_⟩
    · intro j
      rw [hnames j]
      exact List.map_congr_left fun k _ => markSel_name (uploadSel w.st.media) w.st.media k
    · rw [heq, htr]
      rfl

/-- C7 witness: the marking guarantee instantiated on the 12-video input, at
the first selected item. -/
theorem c7_witness :
    (getI (uploadMarkedWorld (emitW { c7World with st := { c7World.st with phase := .uploading } })).st.media 0).status
      = .in_progress :=
  (c7_upload_batching {} (fun _ => .arr [] 0) c7World (by decide) (by decide)).1
    0 (by decide)

-- =============================================================================
-- Claim C10: a bad-JSON entry aborts the per-item loop and the catch re-fails
-- the whole batch, including already-advanced items
-- =============================================================================

/-- A video on its third upload attempt (two failures behind it, no fallback). -/
def c10ItemA : FbLaunchMediaState where
  type := .video
  name := "a"
  url := "u"
  fallbackUrl := none
  stage := .upload
  status := .queued
  retryCount := 2
  usedFallback := false
  fbVideoId := none
  thumbnailUrl := none
  adId := none
  error := none

def c10World : World :=
  mkWorld { initState [] with
    media := [c10ItemA, initMediaItem ⟨.video, "b", "u", none, none⟩] }

def c10Oracle : Nat → BatchResp :=
  fun _ => .arr [.ok (some "ida"), .okBadJson] 5

/-- C10 counterexample: item 0 of the batch succeeds (code 200, id `ida`) and
is advanced to `poll`; the bad-JSON entry for item 1 then aborts the loop and
the catch applies the failure handler to the whole batch — but because item 0
was on its third attempt (retryCount 2, maxRetries 3, no unused fallback), the
handler sends it to `stage = failed`, `status = failed`, not to
`status = retry` with `stage = poll` as the claim states. -/
theorem c10_counterexample :
    (getI (uploadVideos {} (fun _ => false) c10Oracle c10World).st.media 0).retryCount = 3 ∧
    (getI (uploadVideos {} (fun _ => false) c10Oracle c10World).st.media 0).fbVideoId = some "ida" ∧
    (getI (uploadVideos {} (fun _ => false) c10Oracle c10World).st.media 0).stage = .failed ∧
    ¬ ((getI (uploadVideos {} (fun _ => false) c10Oracle c10World).st.media 0).stage = .poll ∧
       (getI (uploadVideos {} (fun _ => false) c10Oracle c10World).st.media 0).status = .retry) := by
  refine ⟨?_, ?_, ?_, ?_⟩ <;> decide

/-- C10 (amended): in a two-item upload batch whose response carries a code-200
entry with an id for item 0 followed by a code-200 entry with an unparseable
body, the `JSON.parse` exception aborts the per-item loop and the batch-level
catch applies the upload failure handler to every item of the batch on top of
the partially advanced media — item 0, already advanced to `stage = poll` with
its new video id, gets the handler applied on top of that success; it keeps
`stage = poll` and its `fbVideoId` with `retryCount` incremented and
`status = retry` provided its fallback is spent and the incremented count is
still below `maxRetries` — otherwise (budget exhausted) it is marked
`stage = failed`, `status = failed`. -/
theorem c10_badJson_catch (mr : Nat) (m0 m1 : FbLaunchMediaState) (id : String)
    (r : Nat) (hid : ¬ id = "") :
    (runUploadBatch mr [m0, m1] [0, 1] (.arr [.ok (some id), .okBadJson] r)).1 =
      failBatchUpload mr [0, 1] [uploadSuccessItem id m0, m1] ∧
    getI (runUploadBatch mr [m0, m1] [0, 1] (.arr [.ok (some id), .okBadJson] r)).1 0 =
      handleUploadFailure mr (uploadSuccessItem id m0) ∧
    getI (runUploadBatch mr [m0, m1] [0, 1] (.arr [.ok (some id), .okBadJson] r)).1 1 =
      handleUploadFailure mr m1 ∧
    (m0.usedFallback = true → m0.retryCount + 1 < mr →
      (handleUploadFailure mr (uploadSuccessItem id m0)).stage = .poll ∧
      (handleUploadFailure mr (uploadSuccessItem id m0)).status = .retry ∧
      (handleUploadFailure mr (uploadSuccessItem id m0)).retryCount = m0.retryCount + 1 ∧
      (handleUploadFailure mr (uploadSuccessItem id m0)).fbVideoId = some id) := by
  have hs : strTruthy (some id) = true := by simp [strTruthy, hid]
  have hbatch : (runUploadBatch mr [m0, m1] [0, 1]
      (.arr [.ok (some id), .okBadJson] r)).1 =
      failBatchUpload mr [0, 1] [uploadSuccessItem id m0, m1] := by
    simp only [runUploadBatch, procUploadItems, hs, if_true]
    rfl
  refine ⟨hbatch, ?_, ?_, fun huf hlt => ?_⟩
  · rw [hbatch]; rfl
  · rw [hbatch]; rfl
  · unfold handleUploadFailure
    rw [if_neg (by simp [uploadSuccessItem, huf]),
      if_pos (show (uploadSuccessItem id m0).retryCount + 1 < mr from hlt)]
    exact ⟨rfl, rfl, rfl, rfl⟩

/-- C10 witness: the amended theorem at a concrete batch whose advanced item
has retry budget left. -/
theorem c10_witness :
    (handleUploadFailure 3 (uploadSuccessItem "ida" { c10ItemA with
        retryCount := 0, usedFallback := true })).stage = .poll ∧
    (handleUploadFailure 3 (uploadSuccessItem "ida" { c10ItemA with
        retryCount := 0, usedFallback := true })).status = .retry ∧
    (handleUploadFailure 3 (uploadSuccessItem "ida" { c10ItemA with
        retryCount := 0, usedFallback := true })).retryCount = 1 ∧
    (handleUploadFailure 3 (uploadSuccessItem "ida" { c10ItemA with
        retryCount := 0, usedFallback := true })).fbVideoId = some "ida" :=
  (c10_badJson_catch 3 { c10ItemA with retryCount := 0, usedFallback := true }
    c10ItemA "ida" 5 (by decide)).2.2.2 (by decide) (by decide)

-- =============================================================================
-- Claim C9: stop semantics
-- =============================================================================

theorem uploadLoop_callCount_le (opts : FbLaunchOptions) (stopAt : Nat → Bool)
    (oracle : Nat → BatchResp) (k : Nat)
    (hmono : ∀ i j, i ≤ j → stopAt i = true → stopAt j = true)
    (hk : stopAt k = true) :
    ∀ (bs : List (List Nat)) (i : Nat) (w : World),
      callCount (uploadLoop opts stopAt oracle bs i w).trace ≤
        callCount w.trace + (k - i) := by
  intro bs
  induction bs with
  | nil => intro i w; simp [uploadLoop]
  | cons b bs ih =>
    intro i w
    simp only [uploadLoop]
    split
    · omega
    · next hcond =>
      have hi : i < k := by
        by_contra hge
        have hst : stopAt i = true := hmono k i (by omega) hk
        simp [hst] at hcond
      have hstep : callCount (uploadStep opts oracle b i w).trace =
          callCount w.trace + 1 := by
        by_cases hgt : i > 0 <;>
          simp [hgt, uploadStep, callW, delayW, callCount_append, callCount]
      have := ih (i + 1) (uploadStep opts oracle b i w)
      omega

theorem adLoop_callCount_le (opts : FbLaunchOptions) (stopAt : Nat → Bool)
    (oracle : Oracle) (k : Nat)
    (hmono : ∀ i j, i ≤ j → stopAt i = true → stopAt j = true)
    (hk : stopAt k = true) :
    ∀ (bs : List (List Nat)) (i : Nat) (w : World),
      callCount (adLoop opts stopAt oracle bs i w).trace ≤
        callCount w.trace + (k - i) := by
  intro bs
  induction bs with
  | nil => intro i w; simp [adLoop]
  | cons b bs ih =>
    intro i w
    simp only [adLoop]
    split
    · omega
    · next hcond =>
      have hi : i < k := by
        by_contra hge
        have hst : stopAt i = true := hmono k i (by omega) hk
        simp [hst] at hcond
      have hstep : callCount (adStep opts oracle b w).trace =
          callCount w.trace + 1 := by
        simp [adStep, callW, emitW, callCount_append, callCount]
      have := ih (i + 1) (adStep opts oracle b w)
      omega

/-- C9: `stop()` sets the stop flag, the phase `stopped` and clears
`isRunning`, and a second call at the same instant leaves the state unchanged;
with the flag set, every stage executor returns its input unchanged (so no
platform call of any kind — check, upload, poll, campaign, ad set or ads — is
initiated), and the tick loop performs no iteration; and in the two batch
loops, once a monotone stop signal is observed (true from index `k` on), no
batch with index at or beyond `k` is dispatched: at most `k` further calls
happen in total. -/
theorem c9_stop (clock : Nat) (s : FbLaunchState) (w w0 : World)
    (opts : FbLaunchOptions) (oracle : Oracle) (stopAt : Nat → Bool) (k : Nat)
    (hw : w.st.isStopped = true)
    (hmono : ∀ i j, i ≤ j → stopAt i = true → stopAt j = true)
    (hk : stopAt k = true) :
    (stop clock s).isStopped = true ∧
    (stop clock s).phase = .stopped ∧
    (stop clock s).isRunning = false ∧
    stop clock (stop clock s) = stop clock s ∧
    checkLibrary oracle w = w ∧
    uploadVideos opts stopAt oracle.upload w = w ∧
    pollVideos oracle w = w ∧
    createAds opts stopAt oracle w = w ∧
    createCampaignAndAdSet oracle w = (w, none) ∧
    (runTickLoop opts oracle w).st = w.st ∧
    callCount (runTickLoop opts oracle w).trace = callCount w.trace ∧
    (∀ bs i, callCount (uploadLoop opts stopAt oracle.upload bs i w0).trace ≤
      callCount w0.trace + (k - i)) ∧
    (∀ bs i, callCount (adLoop opts stopAt oracle bs i w0).trace ≤
      callCount w0.trace + (k - i)) := by
  have htick : ∀ (fuel : Nat) (w' : World), w'.st.isStopped = true →
      tickLoop opts oracle fuel w' = w' := by
    intro fuel w' hw'
    cases fuel with
    | zero => rfl
    | succ n => simp [tickLoop, hw']
  have hdel : (delayW opts.initialPollDelayMs w).st.isStopped = true := hw
  refine ⟨rfl, rfl, rfl, rfl, ?_, ?_, ?_, ?_, ?_, ?_, ?_, ?_, ?_⟩
  · simp [checkLibrary, hw]
  · simp [uploadVideos, hw]
  · simp [pollVideos, hw]
  · simp [createAds, hw]
  · simp [createCampaignAndAdSet, hw]
  · rw [runTickLoop, htick _ _ hdel]
    rfl
  · rw [runTickLoop, htick _ _ hdel]
    simp [delayW, callCount_append, callCount]
  · exact fun bs i => uploadLoop_callCount_le opts stopAt oracle.upload k hmono hk bs i w0
  · exact fun bs i => adLoop_callCount_le opts stopAt oracle k hmono hk bs i w0

/-- A do-nothing oracle for witnesses. -/
def trivOracle : Oracle where
  check := none
  upload := fun _ => .exn
  poll := fun _ => none
  campaign := ⟨none, none, 0⟩
  adset := ⟨none, none, 0⟩
  ads := fun _ => .exn

/-- A stopped world for witnesses. -/
def stoppedWorld : World :=
  mkWorld { initState [] with isStopped := true }

/-- C9 witness: stop's effects and idempotence, and the no-op guarantee on a
concrete stopped world, from the theorem at concrete inputs. -/
theorem c9_witness :
    stop 0 (stop 0 (initState [])) = stop 0 (initState []) ∧
    (stop 0 (initState [])).phase = .stopped ∧
    uploadVideos {} (fun _ => true) trivOracle.upload stoppedWorld = stoppedWorld := by
  have h := c9_stop 0 (initState []) stoppedWorld (mkWorld (initState [])) {}
    trivOracle (fun _ => true) 0 (by decide) (fun _ _ _ h => h) rfl
  exact ⟨h.2.2.2.1, h.2.1, h.2.2.2.2.2.1⟩

-- =============================================================================
-- Claims C1 and C2: start-level lemmas
-- =============================================================================

theorem tickIter_preserves (opts : FbLaunchOptions) (oracle : Oracle) (w : World) :
    (tickIter opts oracle w).st.isStopped = w.st.isStopped ∧
    (tickIter opts oracle w).st.isRunning = w.st.isRunning := by
  simp only [tickIter]
  split
  · constructor
    · rw [(uploadVideos_preserves _ _ _ _).1, (createAds_preserves _ _ _ _).1,
        (pollVideos_preserves _ _).1]
      rfl
    · rw [(uploadVideos_preserves _ _ _ _).2.1, (createAds_preserves _ _ _ _).2.1,
        (pollVideos_preserves _ _).2.1]
      rfl
  · constructor
    · rw [(createAds_preserves _ _ _ _).1, (pollVideos_preserves _ _).1]
      rfl
    · rw [(createAds_preserves _ _ _ _).2.1, (pollVideos_preserves _ _).2.1]
      rfl

theorem tickLoop_preserves (opts : FbLaunchOptions) (oracle : Oracle) :
    ∀ (fuel : Nat) (w : World),
      (tickLoop opts oracle fuel w).st.isStopped = w.st.isStopped ∧
      (tickLoop opts oracle fuel w).st.isRunning = w.st.isRunning := by
  intro fuel
  induction fuel with
  | zero => intro w; exact ⟨rfl, rfl⟩
  | succ n ih =>
    intro w
    simp only [tickLoop]
    split
    · split
      · constructor
        · rw [show (emitW { tickIter opts oracle w with st :=
              { (tickIter opts oracle w).st with phase := .complete } }).st.isStopped
            = (tickIter opts oracle w).st.isStopped from rfl,
            (tickIter_preserves _ _ _).1]
        · rw [show (emitW { tickIter opts oracle w with st :=
              { (tickIter opts oracle w).st with phase := .complete } }).st.isRunning
            = (tickIter opts oracle w).st.isRunning from rfl,
            (tickIter_preserves _ _ _).2]
      · constructor
        · rw [(ih _).1]
          split
          · rw [show ∀ v : World, (delayW opts.tickIntervalMs v).st.isStopped
              = v.st.isStopped from fun _ => rfl, (tickIter_preserves _ _ _).1]
          · rw [(tickIter_preserves _ _ _).1]
        · rw [(ih _).2]
          split
          · rw [show ∀ v : World, (delayW opts.tickIntervalMs v).st.isRunning
              = v.st.isRunning from fun _ => rfl, (tickIter_preserves _ _ _).2]
          · rw [(tickIter_preserves _ _ _).2]
    · exact ⟨rfl, rfl⟩

/-- Characterization of `createCampaignAndAdSet` when the campaign call
returns an error payload. -/
theorem createCampaignAndAdSet_campErr (oracle : Oracle) (w1 : World) (e : String)
    (hs : w1.st.isStopped = false) (hc : w1.st.campaignId = none)
    (he : oracle.campaign.errorMsg = some e) :
    (createCampaignAndAdSet oracle w1).2 = some ("Campaign: " ++ e) ∧
    (createCampaignAndAdSet oracle w1).1.st.phase = .error ∧
    (createCampaignAndAdSet oracle w1).1.st.error = some ("Campaign: " ++ e) ∧
    (createCampaignAndAdSet oracle w1).1.st.media = w1.st.media ∧
    adsCallCount (createCampaignAndAdSet oracle w1).1.trace = adsCallCount w1.trace := by
  simp [createCampaignAndAdSet, emitS, emitW, callW, hs, hc, he, strTruthy,
    adsCallCount, List.filter_append]

/-- Characterization of `createCampaignAndAdSet` when the campaign call
succeeds and the ad-set call returns an error payload. -/
theorem createCampaignAndAdSet_adsetErr (oracle : Oracle) (w1 : World) (e : String)
    (hs : w1.st.isStopped = false) (hc : w1.st.campaignId = none)
    (he1 : oracle.campaign.errorMsg = none) (he2 : oracle.adset.errorMsg = some e) :
    (createCampaignAndAdSet oracle w1).2 = some ("AdSet: " ++ e) ∧
    (createCampaignAndAdSet oracle w1).1.st.phase = .error ∧
    (createCampaignAndAdSet oracle w1).1.st.error = some ("AdSet: " ++ e) ∧
    (createCampaignAndAdSet oracle w1).1.st.media = w1.st.media ∧
    adsCallCount (createCampaignAndAdSet oracle w1).1.trace = adsCallCount w1.trace := by
  simp [createCampaignAndAdSet, emitS, emitW, callW, hs, hc, he1, he2, strTruthy,
    adsCallCount, List.filter_append]

/-- Characterization of `createCampaignAndAdSet` when neither call returns an
error payload: no exception is raised and the lifecycle flags are untouched. -/
theorem createCampaignAndAdSet_noThrow (oracle : Oracle) (w1 : World)
    (he1 : oracle.campaign.errorMsg = none) (he2 : oracle.adset.errorMsg = none) :
    (createCampaignAndAdSet oracle w1).2 = none ∧
    (createCampaignAndAdSet oracle w1).1.st.isStopped = w1.st.isStopped ∧
    (createCampaignAndAdSet oracle w1).1.st.isRunning = w1.st.isRunning := by
  unfold createCampaignAndAdSet
  split
  · exact ⟨rfl, rfl, rfl⟩
  · split
    · exact ⟨rfl, rfl, rfl⟩
    · simp only [he1, he2]
      split
      · exact ⟨rfl, rfl, rfl⟩
      · exact ⟨rfl, rfl, rfl⟩

theorem preCampaign_facts (opts : FbLaunchOptions) (oracle : Oracle) (w : World)
    (h1 : w.st.campaignId = none) :
    (preCampaignWorld opts oracle w).st.isStopped = false ∧
    (preCampaignWorld opts oracle w).st.campaignId = none ∧
    adsCallCount (preCampaignWorld opts oracle w).trace = adsCallCount w.trace := by
  unfold preCampaignWorld
  refine ⟨?_, ?_, ?_⟩
  · rw [(uploadVideos_preserves _ _ _ _).1]
    split
    · rw [(checkLibrary_preserves _ _).1]
      rfl
    · rfl
  · rw [(uploadVideos_preserves _ _ _ _).2.2.1]
    split
    · rw [(checkLibrary_preserves _ _).2.2.1]
      exact h1
    · exact h1
  · rw [(uploadVideos_preserves _ _ _ _).2.2.2.2.2.2]
    split
    · rw [(checkLibrary_preserves _ _).2.2.2.2.2.2]
      rfl
    · rfl

theorem startFinish_some (opts : FbLaunchOptions) (oracle : Oracle)
    (p : World × Option String) (msg : String) (h : p.2 = some msg) :
    startFinish opts oracle p =
      (emitW { p.1 with st :=
        { p.1.st with phase := .error, error := some msg, isRunning := false } },
        some msg) := by
  unfold startFinish
  rw [h]

theorem startFinish_none (opts : FbLaunchOptions) (oracle : Oracle)
    (p : World × Option String) (h : p.2 = none) (hs : p.1.st.isStopped = false) :
    startFinish opts oracle p = startComplete (runTickLoop opts oracle p.1) := by
  unfold startFinish
  rw [h, if_neg (by rw [hs]; exact Bool.false_ne_true)]

theorem startComplete_notStopped (w4 : World) (hs : w4.st.isStopped = false) :
    startComplete w4 =
      (emitW { w4 with st :=
        { w4.st with phase := .complete, isRunning := false } }, none) := by
  unfold startComplete
  rw [if_pos (by rw [hs]; exact Bool.false_ne_true)]

-- =============================================================================
-- Claim C2
-- =============================================================================

/-- C2: if the campaign-creation call (or, the campaign call having succeeded,
the ad-set-creation call) returns an error payload, `start()` rejects with
that error, the phase is `error`, the message is stored in the state, the
media list is exactly the one of the state from just before the campaign stage
ran (so every item's stage and status are unchanged by it), and no ad-creation
call is attempted anywhere in the run. -/
theorem c2_campaign_error (opts : FbLaunchOptions) (oracle : Oracle) (w : World)
    (e : String) (h0 : w.st.isRunning = false) (h1 : w.st.campaignId = none) :
    (oracle.campaign.errorMsg = some e →
      (start opts oracle w).2 = some ("Campaign: " ++ e) ∧
      (start opts oracle w).1.st.phase = .error ∧
      (start opts oracle w).1.st.error = some ("Campaign: " ++ e) ∧
      (start opts oracle w).1.st.media = (preCampaignWorld opts oracle w).st.media ∧
      adsCallCount (start opts oracle w).1.trace = adsCallCount w.trace) ∧
    (oracle.campaign.errorMsg = none → oracle.adset.errorMsg = some e →
      (start opts oracle w).2 = some ("AdSet: " ++ e) ∧
      (start opts oracle w).1.st.phase = .error ∧
      (start opts oracle w).1.st.error = some ("AdSet: " ++ e) ∧
      (start opts oracle w).1.st.media = (preCampaignWorld opts oracle w).st.media ∧
      adsCallCount (start opts oracle w).1.trace = adsCallCount w.trace) := by
  obtain ⟨hstop1, hcamp1, hads1⟩ := preCampaign_facts opts oracle w h1
  have hrun : ¬ (w.st.isRunning = true) := by rw [h0]; exact Bool.false_ne_true
  have hstart : start opts oracle w =
      startFinish opts oracle
        (createCampaignAndAdSet oracle (preCampaignWorld opts oracle w)) := by
    unfold start
    rw [if_neg hrun, if_neg (by rw [hstop1]; exact Bool.false_ne_true)]
  constructor
  · intro he
    obtain ⟨hc1, hc2, hc3, hc4, hc5⟩ :=
      createCampaignAndAdSet_campErr oracle (preCampaignWorld opts oracle w) e
        hstop1 hcamp1 he
    rw [hstart, startFinish_some opts oracle _ _ hc1]
    refine ⟨rfl, rfl, rfl, hc4, ?_⟩
    rw [show (emitW { (createCampaignAndAdSet oracle (preCampaignWorld opts oracle w)).1 with st :=
      { (createCampaignAndAdSet oracle (preCampaignWorld opts oracle w)).1.st with
        phase := .error, error := some ("Campaign: " ++ e), isRunning := false } }).trace =
      (createCampaignAndAdSet oracle (preCampaignWorld opts oracle w)).1.trace from rfl]
    rw [hc5, hads1]
  · intro he1 he2
    obtain ⟨hc1, hc2, hc3, hc4, hc5⟩ :=
      createCampaignAndAdSet_adsetErr oracle (preCampaignWorld opts oracle w) e
        hstop1 hcamp1 he1 he2
    rw [hstart, startFinish_some opts oracle _ _ hc1]
    refine ⟨rfl, rfl, rfl, hc4, ?_⟩
    rw [show (emitW { (createCampaignAndAdSet oracle (preCampaignWorld opts oracle w)).1 with st :=
      { (createCampaignAndAdSet oracle (preCampaignWorld opts oracle w)).1.st with
        phase := .error, error := some ("AdSet: " ++ e), isRunning := false } }).trace =
      (createCampaignAndAdSet oracle (preCampaignWorld opts oracle w)).1.trace from rfl]
    rw [hc5, hads1]

-- =============================================================================
-- Claim C1
-- =============================================================================

def c1Input : FbLaunchMediaInput := ⟨.video, "v", "u", none, none⟩

/-- Oracle for the C1 scenario: the upload succeeds, but the platform keeps
reporting the video as still processing, so the single tick cannot finish it. -/
def c1Oracle : Oracle where
  check := none
  upload := fun _ => .arr [.ok (some "vid1")] 3
  poll := fun _ => some ⟨some [⟨"vid1", "v", some "processing", none⟩], 2⟩
  campaign := ⟨none, some "c1", 1⟩
  adset := ⟨none, some "a1", 1⟩
  ads := fun _ => .exn

def c1Opts : FbLaunchOptions := { maxTicks := 1, checkLibraryFirst := false }

/-- C1 counterexample: with `maxTicks = 1` and a video still at stage `poll`
when the tick budget runs out, the run nevertheless ends with
`phase = complete` (and was never stopped): `start()`'s finalizer sets
`complete` unconditionally, contradicting the claim that the run ends without
`phase = complete`. -/
theorem c1_counterexample :
    (start c1Opts c1Oracle (mkWorld (initState [c1Input]))).1.st.phase = .complete ∧
    (start c1Opts c1Oracle (mkWorld (initState [c1Input]))).2 = none ∧
    (start c1Opts c1Oracle (mkWorld (initState [c1Input]))).1.st.isStopped = false ∧
    (start c1Opts c1Oracle (mkWorld (initState [c1Input]))).1.st.tick = 1 ∧
    (getI (start c1Opts c1Oracle (mkWorld (initState [c1Input]))).1.st.media 0).stage = .poll ∧
    ¬ ((getI (start c1Opts c1Oracle (mkWorld (initState [c1Input]))).1.st.media 0).stage = .done ∨
       (getI (start c1Opts c1Oracle (mkWorld (initState [c1Input]))).1.st.media 0).stage = .failed) := by
  refine ⟨?_, ?_, ?_, ?_, ?_, ?_⟩ <;> decide

/-- C1 (amended): whenever `start()` resolves (no campaign or ad-set error
payload) and the run was never stopped, the final phase is `complete` — even
when `maxTicks` is exhausted with items still pending. Only within
`runTickLoop` is the phase left as last set; `start()`'s finalizer then
overwrites it with `complete` whenever the run is not stopped. -/
theorem c1_complete_always (opts : FbLaunchOptions) (oracle : Oracle) (w : World)
    (h0 : w.st.isRunning = false)
    (he1 : oracle.campaign.errorMsg = none) (he2 : oracle.adset.errorMsg = none) :
    (start opts oracle w).2 = none ∧
    (start opts oracle w).1.st.phase = .complete ∧
    (start opts oracle w).1.st.isRunning = false := by
  have hrun : ¬ (w.st.isRunning = true) := by rw [h0]; exact Bool.false_ne_true
  have hstop1 : (preCampaignWorld opts oracle w).st.isStopped = false := by
    unfold preCampaignWorld
    rw [(uploadVideos_preserves _ _ _ _).1]
    split
    · rw [(checkLibrary_preserves _ _).1]
      rfl
    · rfl
  obtain ⟨hp1, hp2, hp3⟩ := createCampaignAndAdSet_noThrow oracle
    (preCampaignWorld opts oracle w) he1 he2
  have hstart : start opts oracle w =
      startFinish opts oracle
        (createCampaignAndAdSet oracle (preCampaignWorld opts oracle w)) := by
    unfold start
    rw [if_neg hrun, if_neg (by rw [hstop1]; exact Bool.false_ne_true)]
  have hpstop : (createCampaignAndAdSet oracle
      (preCampaignWorld opts oracle w)).1.st.isStopped = false := hp2.trans hstop1
  have htickstop : (runTickLoop opts oracle
      (createCampaignAndAdSet oracle (preCampaignWorld opts oracle w)).1).st.isStopped = false := by
    unfold runTickLoop
    rw [(tickLoop_preserves _ _ _ _).1]
    exact hpstop
  rw [hstart, startFinish_none opts oracle _ hp1 hpstop,
    startComplete_notStopped _ htickstop]
  exact ⟨rfl, rfl, rfl⟩

/-- C1 witness: the amended theorem at the scenario's own input (one pending
video, `maxTicks = 1`). -/
theorem c1_witness :
    (start c1Opts c1Oracle (mkWorld (initState [c1Input]))).2 = none ∧
    (start c1Opts c1Oracle (mkWorld (initState [c1Input]))).1.st.phase = .complete ∧
    (start c1Opts c1Oracle (mkWorld (initState [c1Input]))).1.st.isRunning = false :=
  c1_complete_always c1Opts c1Oracle (mkWorld (initState [c1Input]))
    (by decide) rfl rfl

/-- Oracle whose campaign-creation call returns an error payload. -/
def c2Oracle : Oracle where
  check := none
  upload := fun _ => .arr [.ok (some "vid1")] 3
  poll := fun _ => none
  campaign := ⟨some "boom", none, 1⟩
  adset := ⟨none, some "a1", 1⟩
  ads := fun _ => .exn

/-- C2 witness: the theorem at a concrete run whose campaign call errors. -/
theorem c2_witness :
    (start c1Opts c2Oracle (mkWorld (initState [c1Input]))).2 = some "Campaign: boom" ∧
    (start c1Opts c2Oracle (mkWorld (initState [c1Input]))).1.st.phase = .error ∧
    adsCallCount (start c1Opts c2Oracle (mkWorld (initState [c1Input]))).1.trace = 0 := by
  have h := c2_campaign_error c1Opts c2Oracle (mkWorld (initState [c1Input]))
    "boom" (by decide) (by decide)
  exact ⟨(h.1 rfl).1, (h.1 rfl).2.1, (h.1 rfl).2.2.2.2⟩
